import Mathlib

/-!
Verification development for the tono-bot conversational commerce engine.

The Python sources are shallowly embedded: pure functions become Lean
functions over character lists; the regular expressions used by the code
(all of which are fixed word/phrase patterns, bounded gaps, or digit
groups) are translated into equivalent explicit matchers; external
collaborators (the LLM providers, the clock, the financing JSON file,
the chat transport, the session store) appear as explicit parameters.
Machine strings are Lean strings (unicode code points, as in Python 3).
-/

set_option maxRecDepth 4000

/-! ## Basic character and string utilities (Python semantics) -/

/-- Python str.lower for the characters appearing in this code base:
ASCII letters plus the Spanish accented letters. -/
def lowerChar (c : Char) : Char :=
  if 'A' ≤ c && c ≤ 'Z' then Char.ofNat (c.toNat + 32)
  else if c = 'Á' then 'á'
  else if c = 'É' then 'é'
  else if c = 'Í' then 'í'
  else if c = 'Ó' then 'ó'
  else if c = 'Ú' then 'ú'
  else if c = 'Ñ' then 'ñ'
  else if c = 'Ü' then 'ü'
  else c

/-- Python str.upper on a single character (used by str.capitalize). -/
def upperChar (c : Char) : Char :=
  if 'a' ≤ c && c ≤ 'z' then Char.ofNat (c.toNat - 32)
  else if c = 'á' then 'Á'
  else if c = 'é' then 'É'
  else if c = 'í' then 'Í'
  else if c = 'ó' then 'Ó'
  else if c = 'ú' then 'Ú'
  else if c = 'ñ' then 'Ñ'
  else if c = 'ü' then 'Ü'
  else c

def lowerStr (s : List Char) : List Char := s.map lowerChar

/-- Whitespace characters recognized by Python str.strip / str.split / regex s-class
for the inputs of this system. -/
def isWs (c : Char) : Bool := c = ' ' || c = '\t' || c = '\n' || c = '\r'

def dropLeadWs (s : List Char) : List Char := s.dropWhile isWs

/-- Python str.strip(). -/
def pyStrip (s : List Char) : List Char :=
  ((s.dropWhile isWs).reverse.dropWhile isWs).reverse

/-- Python str.split() with no argument: split on runs of whitespace,
dropping empty pieces. -/
def splitWs (s : List Char) : List (List Char) :=
  let rec go : List Char → List Char → List (List Char)
    | [], acc => if acc.isEmpty then [] else [acc.reverse]
    | c :: rest, acc =>
        if isWs c then
          if acc.isEmpty then go rest [] else acc.reverse :: go rest []
        else go rest (c :: acc)
  go s []

/-- Python substring containment: sub in s. -/
def hasSub : List Char → List Char → Bool
  | s, sub =>
    if sub.isPrefixOf s then true
    else match s with
      | [] => false
      | _ :: rest => hasSub rest sub

def containsAnySub (s : List Char) (subs : List (List Char)) : Bool :=
  subs.any (fun x => hasSub s x)

/-- Word character for the regex b-boundary (Python w with unicode:
letters, digits, underscore; the texts of this system only use ASCII and
Spanish accented letters). -/
def isWordChar (c : Char) : Bool :=
  ('a' ≤ c && c ≤ 'z') || ('A' ≤ c && c ≤ 'Z') || ('0' ≤ c && c ≤ '9') || c = '_' ||
  c ∈ ['á', 'é', 'í', 'ó', 'ú', 'ñ', 'ü', 'Á', 'É', 'Í', 'Ó', 'Ú', 'Ñ', 'Ü']

/-- A regex word boundary holds before the next character given the previous
character (none = string edge). -/
def boundaryBefore (prev : Option Char) : Bool :=
  match prev with
  | none => true
  | some c => !isWordChar c

/-- A word boundary holds right after a word-char sequence given the rest of
the string. -/
def boundaryAfter (rest : List Char) : Bool :=
  match rest with
  | [] => true
  | c :: _ => !isWordChar c

/-- Does the word-bounded pattern pat (a literal word or phrase of word
characters and inner spaces) occur in s, as for re.search of b pat b. -/
def hasWordBoundedAux (prev : Option Char) (s pat : List Char) : Bool :=
  (boundaryBefore prev && pat.isPrefixOf s && boundaryAfter (s.drop pat.length)) ||
  (match s with
   | [] => false
   | c :: rest => hasWordBoundedAux (some c) rest pat)

def hasWordBounded (s pat : List Char) : Bool := hasWordBoundedAux none s pat

/-- Python str.replace(old, new) with old nonempty: replace all
non-overlapping occurrences left to right.  Fuelled by the length of s
(each step consumes at least one character of s). -/
def replaceAllAux : Nat → List Char → List Char → List Char → List Char
  | 0, s, _, _ => s
  | fuel + 1, s, old, new =>
    match s with
    | [] => []
    | c :: rest =>
      if old ≠ [] && old.isPrefixOf s then
        new ++ replaceAllAux fuel (s.drop old.length) old new
      else c :: replaceAllAux fuel rest old new

def replaceAll (s old new : List Char) : List Char :=
  replaceAllAux s.length s old new

/-- re.sub of a word-bounded literal pattern: replace every occurrence of
pat that sits at word boundaries.  Matches are located in the original
string, scanning left to right, non-overlapping. -/
def replaceWordBoundedAux : Nat → Option Char → List Char → List Char → List Char → List Char
  | 0, _, s, _, _ => s
  | fuel + 1, prev, s, pat, repl =>
    match s with
    | [] => []
    | c :: rest =>
      if pat ≠ [] && boundaryBefore prev && pat.isPrefixOf s &&
         boundaryAfter (s.drop pat.length) then
        repl ++ replaceWordBoundedAux fuel (pat.getLast?) (s.drop pat.length) pat repl
      else c :: replaceWordBoundedAux fuel (some c) rest pat repl

def replaceWordBounded (s pat repl : List Char) : List Char :=
  replaceWordBoundedAux s.length none s pat repl

/-- Python string slice s[-n:]. -/
def takeLast (s : List Char) (n : Nat) : List Char :=
  s.drop (s.length - n)

/-- Python str.capitalize(): first character uppercased, the rest lowercased. -/
def pyCapitalize (w : List Char) : List Char :=
  match w with
  | [] => []
  | c :: rest => upperChar c :: rest.map lowerChar

/-- Python " ".join(pieces). -/
def joinSpace (ws : List (List Char)) : List Char :=
  match ws with
  | [] => []
  | [w] => w
  | w :: rest => w ++ ' ' :: joinSpace rest

def isDigitChar (c : Char) : Bool := '0' ≤ c && c ≤ '9'

/-- Value of a list of decimal digits (int() on a digit string). -/
def digitsToNat (ds : List Char) : Nat :=
  ds.foldl (fun acc c => acc * 10 + (c.toNat - '0'.toNat)) 0

/-- Decimal digits of a number (str() of a nonnegative int), via Nat.toDigits. -/
def natToDigits (n : Nat) : List Char :=
  Nat.toDigits 10 n

/-! ## main.py: BoundedOrderedSet (bounded FIFO dedup set)

Embeds the class from src/main.py.  The OrderedDict is represented by the
list of keys in insertion order, head = oldest.  popitem(last=False)
removes the head; inserting appends at the tail. -/

structure BOSet where
  data : List String
  maxlen : Nat
deriving Repr, DecidableEq

def BOSet.empty (maxlen : Nat) : BOSet := ⟨[], maxlen⟩

def BOSet.mem (s : BOSet) (k : String) : Bool := s.data.contains k

/-- BoundedOrderedSet.add: no-op when the key is present; otherwise evict
the oldest entry when at capacity, then append. -/
def BOSet.add (s : BOSet) (k : String) : BOSet :=
  if s.data.contains k then s
  else if s.maxlen ≤ s.data.length then ⟨s.data.tail ++ [k], s.maxlen⟩
  else ⟨s.data ++ [k], s.maxlen⟩

def BOSet.size (s : BOSet) : Nat := s.data.length

/-! ## monday_service.py: stage hierarchy and upsert decision -/

/-- STAGE_HIERARCHY.get(stage, 0): the rank of a funnel stage label. -/
def stageRank (s : String) : Nat :=
  if s = "1er Contacto" then 1
  else if s = "Intención" then 2
  else if s = "Cotización" then 3
  else if s = "Cita Programada" then 4
  else 0

def TERMINAL_STAGES : List String := ["Venta Cerrada", "Venta Caida", "Sin Interes"]

/-- MondayService._should_advance_stage. -/
def shouldAdvanceStage (currentStage candidateStage : String) : Bool :=
  stageRank currentStage < stageRank candidateStage

/-- The existing CRM item found by phone lookup, as returned by
MondayService._find_item_by_phone: its id and stored stage text. -/
structure ExistingItem where
  itemId : Nat
  currentStage : String
deriving Repr, DecidableEq

/-- Step 2 of create_or_update_lead: decide create vs update.  Returns
(is_new, current_stage as used afterwards).  A stored terminal stage makes
the record be treated as absent (new cycle). -/
def upsertDecision (existing : Option ExistingItem) : Bool × String :=
  match existing with
  | none => (true, "")
  | some e =>
      if TERMINAL_STAGES.contains e.currentStage then (true, "")
      else (false, e.currentStage)

/-- Step 3 of create_or_update_lead: stage or ("1er Contacto" if is_new else "").
stageArg = none models stage=None; the empty string is falsy in Python. -/
def effectiveStage (stageArg : Option String) (isNew : Bool) : String :=
  let dflt := if isNew then "1er Contacto" else ""
  match stageArg with
  | none => dflt
  | some s => if s = "" then dflt else s

/-- The stage part of MondayService._build_column_values: the value written
to the stage column, if any.  stageColConfigured models a configured
MONDAY_STAGE_COLUMN_ID. -/
def stageColumnWrite (stageColConfigured : Bool) (stage : String) (isNew : Bool)
    (currentStage : String) : Option String :=
  if stage ≠ "" && stageColConfigured then
    if isNew then some stage
    else if stage = "Sin Interes" then some stage
    else if shouldAdvanceStage currentStage stage then some stage
    else none
  else none

/-- Outcome of one CRM upsert relevant to the funnel-stage invariant. -/
structure UpsertOutcome where
  isNew : Bool
  currentStage : String
  stageWritten : Option String
deriving Repr, DecidableEq

/-- The create_or_update_lead decision pipeline for the stage column:
find-by-phone result in, create/update decision and stage write out. -/
def crmUpsertStage (existing : Option ExistingItem) (stageArg : Option String)
    (stageColConfigured : Bool) : UpsertOutcome :=
  let d := upsertDecision existing
  let s := effectiveStage stageArg d.1
  ⟨d.1, d.2, stageColumnWrite stageColConfigured s d.1 d.2⟩

/-! ## Regex helper matchers

The regular expressions of conversation_logic.py are all of a few fixed
shapes; each shape gets an explicit matcher with re.search semantics
(existence of a match anywhere in the string). -/

def strOf (l : List Char) : String := String.mk l

def hasSubS (s : List Char) (sub : String) : Bool := hasSub s sub.data

def containsAnyS (s : List Char) (subs : List String) : Bool :=
  subs.any (fun x => hasSub s x.data)

def hasWordBoundedS (s : List Char) (pat : String) : Bool := hasWordBounded s pat.data

/-- One of the alternatives alts matches at the head of s, word-bounded on
the right, with the word boundary on the left given by prev. -/
def altBoundedAt (prev : Option Char) (s : List Char) (alts : List (List Char)) : Bool :=
  boundaryBefore prev && alts.any (fun a => a.isPrefixOf s && boundaryAfter (s.drop a.length))

/-- Consume up to budget gap characters (the regex dot, which does not
match a newline) and then require a word-bounded alternative. -/
def tryGaps : Option Char → List Char → List (List Char) → Nat → Bool
  | prev, s, alts, budget =>
    altBoundedAt prev s alts ||
    (match budget, s with
     | 0, _ => false
     | _, [] => false
     | b + 1, c :: rest => c ≠ '\n' && tryGaps (some c) rest alts b)

/-- re.search of b (f1|..|fm) b .{0,maxGap} b (a1|..|an) b. -/
def gapMatchAux (prev : Option Char) (s : List Char) (firsts alts : List (List Char))
    (maxGap : Nat) : Bool :=
  (boundaryBefore prev &&
    firsts.any (fun f =>
      f.isPrefixOf s && boundaryAfter (s.drop f.length) &&
      tryGaps f.getLast? (s.drop f.length) alts maxGap)) ||
  (match s with
   | [] => false
   | c :: rest => gapMatchAux (some c) rest firsts alts maxGap)

def gapMatch (s : List Char) (firsts alts : List String) (maxGap : Nat) : Bool :=
  gapMatchAux none s (firsts.map String.data) (alts.map String.data) maxGap

/-! ## conversation_logic.py: normalization and small detectors -/

/-- The letter class [A-Za-zAccents] used by the name patterns and the
lead-validity alphabetic check. -/
def isSpanishAlpha (c : Char) : Bool :=
  ('a' ≤ c && c ≤ 'z') || ('A' ≤ c && c ≤ 'Z') ||
  c ∈ ['Á', 'É', 'Í', 'Ó', 'Ú', 'Ñ', 'Ü', 'á', 'é', 'í', 'ó', 'ú', 'ñ', 'ü']

/-- The alias table of _normalize_spanish, in source order: word-bounded
pattern to replacement. -/
def aliasMap : List (String × String) :=
  [("la e5", "tunland e5"), ("el e5", "tunland e5"),
   ("la g7", "tunland g7"), ("el g7", "tunland g7"),
   ("la g9", "tunland g9"), ("el g9", "tunland g9"),
   ("la pickup", "tunland"), ("la troca", "tunland"),
   ("la camioneta", "tunland"), ("la doble cabina", "tunland"),
   ("la van", "toano panel"), ("la panel", "toano panel"),
   ("la combi", "toano panel"),
   ("el camioncito", "miler"), ("el miler", "miler"),
   ("el de 3 toneladas", "miler"), ("el de carga", "miler"),
   ("el tracto", "6x4"), ("el tractocamion", "6x4"),
   ("el tractocamión", "6x4"), ("la esta", "6x4"),
   ("el camion grande", "6x4"), ("el camión grande", "6x4"),
   ("la cascadia", "cascadia"), ("el cascadia", "cascadia")]

/-- _normalize_spanish: lowercase, fix brand and model typos, then apply
the colloquial alias map. -/
def normalizeSpanish (s : List Char) : List Char :=
  let t := lowerStr s
  let t := replaceAll t "miller".data "miler".data
  let t := replaceAll t "vanesa".data "toano".data
  let t := replaceAll t "freight liner".data "freightliner".data
  let t := replaceAll t "freigthliner".data "freightliner".data
  let t := replaceAll t "freighliner".data "freightliner".data
  let t := replaceWordBounded t "tunlan".data "tunland".data
  let t := replaceWordBounded t "tunlad".data "tunland".data
  let t := replaceWordBounded t "tunlnad".data "tunland".data
  let t := replaceWordBounded t "cascadía".data "cascadia".data
  let t := replaceWordBounded t "caskadia".data "cascadia".data
  aliasMap.foldl (fun acc pr => replaceWordBounded acc pr.1.data pr.2.data) t

/-- _detect_disinterest: exact STOP/BAJA or an explicit disinterest phrase. -/
def detectDisinterest (text : String) : Bool :=
  if text.data = [] then false
  else
    let t := pyStrip text.data
    if t = "STOP".data || t = "BAJA".data then true
    else
      containsAnyS (lowerStr t)
        ["no me interesa", "ya no quiero", "no gracias", "no, gracias",
         "cancela", "cancelar", "ya no me interesa", "no estoy interesado",
         "no quiero nada", "dejen de escribirme", "no me escriban", "basta"]

/-- _message_confirms_appointment: exact membership in a confirmation list. -/
def messageConfirmsAppointment (text : String) : Bool :=
  let t := lowerStr (pyStrip text.data)
  (["vale", "ok", "okey", "si", "sí", "listo", "perfecto",
    "nos vemos", "ahí nos vemos", "mañana nos vemos",
    "de acuerdo", "confirmo", "gracias", "está bien",
    "entendido", "excelente", "claro", "bien", "sale"].map String.data).contains t

/-- A candidate lead as handled by the code: the four string fields of the
lead_event payload. -/
structure Lead where
  nombre : String
  interes : String
  cita : String
  pago : String
deriving Repr, DecidableEq

def leadPlaceholders : List String :=
  ["cliente nuevo", "desconocido", "amigo", "cliente", "nuevo lead",
   "usuario", "no proporcionado"]

/-- _lead_is_valid: the hard validity gate before a lead is emitted. -/
def leadIsValid (l : Lead) : Bool :=
  let nombre := pyStrip l.nombre.data
  let interes := pyStrip l.interes.data
  let cita := pyStrip l.cita.data
  if nombre = [] || nombre.length < 3 then false
  else if (leadPlaceholders.map String.data).contains (lowerStr nombre) then false
  else if !(nombre.any isSpanishAlpha) then false
  else if interes = [] || interes.length < 2 then false
  else if cita = [] || cita.length < 2 then false
  else true

/-- _extract_payment_from_text: negation patterns first, then positive
keyword matching. -/
def extractPaymentFromText (text : String) : Option String :=
  let msg := lowerStr text.data
  let credTerms := ["crédito", "credito", "financiamiento", "financiación", "mensualidades"]
  let negCredit :=
    gapMatch msg ["no"] credTerms 15 ||
    gapMatch msg ["sin"] ["crédito", "credito", "financiamiento", "financiación"] 15 ||
    gapMatch msg ["nada de"] ["crédito", "credito", "financiamiento"] 10
  if negCredit then some "Contado"
  else
    let negContado :=
      gapMatch msg ["no"] ["contado", "cash"] 15 ||
      gapMatch msg ["sin"] ["contado", "cash"] 15
    if negContado then some "Crédito"
    else if containsAnyS msg ["contado", "cash", "de contado"] then some "Contado"
    else if containsAnyS msg credTerms then some "Crédito"
    else none

/-! ## conversation_logic.py: appointment extraction -/

/-- After the hour digits of b(d12) s* y s* media b: optional whitespace,
literal y, optional whitespace, media, right word boundary. -/
def yMediaTail (rest : List Char) : Bool :=
  let r1 := rest.dropWhile isWs
  match r1 with
  | 'y' :: r2 =>
      let r3 := r2.dropWhile isWs
      "media".data.isPrefixOf r3 && boundaryAfter (r3.drop 5)
  | _ => false

/-- Greedy one-or-two digit group at the head of s (word boundary on the
left supplied by the caller), with the given tail test; returns the value
of the matched group. -/
def digitGroupAt (s : List Char) (tail : List Char → Bool) : Option Nat :=
  match s with
  | c1 :: rest1 =>
      if isDigitChar c1 then
        match rest1 with
        | c2 :: rest2 =>
            if isDigitChar c2 then
              if tail rest2 then some (digitsToNat [c1, c2])
              else if tail rest1 then some (digitsToNat [c1])
              else none
            else if tail rest1 then some (digitsToNat [c1]) else none
        | [] => if tail [] then some (digitsToNat [c1]) else none
      else none
  | [] => none

/-- Leftmost re.search for a pattern of shape b(d12)(tail): scan positions,
at each word-boundary position try the digit group with the given tail. -/
def digitSearchAux (prev : Option Char) (s : List Char) (tail : List Char → Bool) : Option Nat :=
  match (if boundaryBefore prev then digitGroupAt s tail else none) with
  | some h => some h
  | none =>
    match s with
    | [] => none
    | c :: rest => digitSearchAux (some c) rest tail

/-- re.search of b(d12) s* y s* media b, returning the hour. -/
def searchYMedia (t : List Char) : Option Nat :=
  digitSearchAux none t yMediaTail

/-- The tail of b(d12) s* : s* (d2) b, returning the minute digits. -/
def colonTail (rest : List Char) : Option (Char × Char) :=
  let r1 := rest.dropWhile isWs
  match r1 with
  | ':' :: r2 =>
      let r3 := r2.dropWhile isWs
      match r3 with
      | m1 :: m2 :: r4 =>
          if isDigitChar m1 && isDigitChar m2 && boundaryAfter r4 then some (m1, m2)
          else none
      | _ => none
  | _ => none

/-- Variant of the digit-group matcher whose tail also captures data. -/
def digitGroupCapAt (s : List Char) (tail : List Char → Option (Char × Char)) :
    Option (Nat × Char × Char) :=
  match s with
  | c1 :: rest1 =>
      if isDigitChar c1 then
        match rest1 with
        | c2 :: rest2 =>
            if isDigitChar c2 then
              match tail rest2 with
              | some mm => some (digitsToNat [c1, c2], mm)
              | none =>
                match tail rest1 with
                | some mm => some (digitsToNat [c1], mm)
                | none => none
            else
              match tail rest1 with
              | some mm => some (digitsToNat [c1], mm)
              | none => none
        | [] =>
          match tail [] with
          | some mm => some (digitsToNat [c1], mm)
          | none => none
      else none
  | [] => none

def digitSearchCapAux (prev : Option Char) (s : List Char)
    (tail : List Char → Option (Char × Char)) : Option (Nat × Char × Char) :=
  match (if boundaryBefore prev then digitGroupCapAt s tail else none) with
  | some r => some r
  | none =>
    match s with
    | [] => none
    | c :: rest => digitSearchCapAux (some c) rest tail

/-- re.search of b(d12) s* : s* (d2) b, returning hour and minute digits. -/
def searchHColonMM (t : List Char) : Option (Nat × Char × Char) :=
  digitSearchCapAux none t colonTail

/-- The tail of b(d12) s* (am|pm) b, capturing the meridiem as a char. -/
def amPmTail (rest : List Char) : Option (Char × Char) :=
  let r1 := rest.dropWhile isWs
  match r1 with
  | 'a' :: 'm' :: r2 => if boundaryAfter r2 then some ('a', 'm') else none
  | 'p' :: 'm' :: r2 => if boundaryAfter r2 then some ('p', 'm') else none
  | _ => none

/-- re.search of b(d12) s* (am|pm) b, returning the hour and whether pm. -/
def searchHAmPm (t : List Char) : Option (Nat × Bool) :=
  match digitSearchCapAux none t amPmTail with
  | some (h, m, _) => some (h, m = 'p')
  | none => none

/-- f-string of a nonnegative int. -/
def natStr (n : Nat) : List Char := natToDigits n

/-- mm:02d formatting of a minute value below 100. -/
def mmPad (mm : Nat) : List Char :=
  if mm < 10 then '0' :: natToDigits mm else natToDigits mm

/-- _pretty_time_24_to_12. -/
def prettyTime24To12 (h24 : Nat) (mm : List Char) : List Char :=
  if h24 = 0 then "12:".data ++ mm ++ " AM".data
  else if 1 ≤ h24 && h24 ≤ 11 then natStr h24 ++ ':' :: mm ++ " AM".data
  else if h24 = 12 then "12:".data ++ mm ++ " PM".data
  else natStr (h24 - 12) ++ ':' :: mm ++ " PM".data

/-- re.fullmatch of d12 : d2 on a constructed time string. -/
def isHMMShape (ts : List Char) : Bool :=
  match ts with
  | [a, ':', b, c] => isDigitChar a && isDigitChar b && isDigitChar c
  | [a, a2, ':', b, c] => isDigitChar a && isDigitChar a2 && isDigitChar b && isDigitChar c
  | _ => false

/-- time_str.split(":")[0] and [1] for a string of shape h:mm. -/
def splitColon (ts : List Char) : List Char × List Char :=
  match ts.span (fun c => c ≠ ':') with
  | (before, _ :: after) => (before, after)
  | (before, []) => (before, [])

/-- The day displayed for a detected weekday: d.capitalize() with the two
accent fixes applied. -/
def dayDisplay (d : String) : List Char :=
  replaceAll (replaceAll (pyCapitalize d.data) "Miercoles".data "Miércoles".data)
    "Sabado".data "Sábado".data

/-- _extract_appointment_from_text: detect a day and a time and combine. -/
def extractAppointmentFromText (text : String) : Option String :=
  let t := lowerStr (pyStrip text.data)
  if t = [] then none
  else
    let day : Option (List Char) :=
      if hasSubS t "mañana" then some "Mañana".data
      else
        (["lunes", "martes", "miércoles", "miercoles", "jueves",
          "viernes", "sábado", "sabado", "domingo"].find?
          (fun d => hasSubS t d)).map dayDisplay
    let ts1 : Option (List Char) :=
      if hasSubS t "medio dia" || hasSubS t "mediodía" || hasSubS t "medio día" then
        some "12:00".data
      else none
    let ts2 : Option (List Char) :=
      match ts1 with
      | some x => some x
      | none => (searchYMedia t).map (fun h => natStr h ++ ":30".data)
    let ts3 : Option (List Char) :=
      match ts2 with
      | some x => some x
      | none =>
        match searchHColonMM t with
        | some (h, m1, m2) =>
            let mm := digitsToNat [m1, m2]
            if h ≤ 23 && mm ≤ 59 then some (natStr h ++ ':' :: mmPad mm) else none
        | none => none
    let ts4 : Option (List Char) :=
      match ts3 with
      | some x => some x
      | none =>
        match searchHAmPm t with
        | some (h, pm) =>
            if 1 ≤ h && h ≤ 12 then
              let hh := h % 12 + (if pm then 12 else 0)
              some (natStr hh ++ ":00".data)
            else none
        | none => none
    let timeStr : Option (List Char) :=
      match ts4 with
      | some x => some x
      | none =>
        if hasSubS t "en la tarde" || hasSubS t "por la tarde" then some "(tarde)".data
        else if hasSubS t "en la mañana" || hasSubS t "por la mañana" then some "(mañana)".data
        else if hasSubS t "en la noche" || hasSubS t "por la noche" then some "(noche)".data
        else none
    match day, timeStr with
    | some d, some ts =>
        if isHMMShape ts then
          let p := splitColon ts
          some (strOf (d ++ ' ' :: prettyTime24To12 (digitsToNat p.1) p.2))
        else some (strOf (d ++ ' ' :: ts))
    | some d, none => some (strOf d)
    | none, some ts =>
        if isHMMShape ts then
          let p := splitColon ts
          some (strOf (prettyTime24To12 (digitsToNat p.1) p.2))
        else some (strOf ts)
    | none, none => none

/-! ## conversation_logic.py: name extraction -/

def badNameWords : List String :=
  ["aqui", "aquí", "nadie", "yo", "el", "ella", "amigo", "desconocido",
   "cliente", "usuario", "quien", "quién",
   "si", "sí", "no", "bueno", "ok", "okey", "hola", "bien", "gracias",
   "vale", "perfecto", "listo", "claro", "sale", "dale",
   "que", "qué", "como", "cómo", "cuando", "cuándo", "donde", "dónde",
   "precio", "fotos", "foto", "info", "información", "informacion",
   "ubicación", "ubicacion", "costo", "interesado", "interesada",
   "cotización", "cotizacion", "modelo", "camioneta", "camion", "camión",
   "credito", "crédito", "contado", "financiamiento",
   "quiero", "necesito", "busco", "tengo", "puedo", "estoy"]

def trailingStopWords : List String :=
  ["disculpa", "disculpe", "disculpen", "perdón", "perdon", "perdona",
   "oye", "oiga", "mira", "mire",
   "quisiera", "quería", "queria", "necesito", "quiero",
   "me", "te", "se", "le", "nos",
   "en", "de", "del", "por", "para", "con",
   "una", "un", "la", "el", "lo", "las", "los",
   "favor", "pregunta", "consulta", "duda",
   "buenos", "buenas", "buen"]

def nameAskingPhrases : List String :=
  ["tu nombre", "cómo te llamas", "como te llamas",
   "me compartes tu nombre", "me das tu nombre",
   "a nombre de quién", "a nombre de quien",
   "quién me busca", "quien me busca",
   "nombre del interesado", "nombre completo",
   "con quién tengo el gusto", "con quien tengo el gusto"]

/-- Python split on a single separator character, keeping empty pieces. -/
def splitOnChar (s : List Char) (sep : Char) : List (List Char) :=
  let rec go : List Char → List Char → List (List Char)
    | [], acc => [acc.reverse]
    | c :: rest, acc => if c = sep then acc.reverse :: go rest [] else go rest (c :: acc)
  go s []

/-- Successive (s+ letters+) groups after the first captured word, at most
n of them, greedily taken with their rest-of-string positions. -/
def extraWordsList : List Char → Nat → List (List Char × List Char)
  | _, 0 => []
  | s, n + 1 =>
    let ws := s.takeWhile isWs
    if ws.isEmpty then []
    else
      let s1 := s.drop ws.length
      let w := s1.takeWhile isSpanishAlpha
      if w.isEmpty then []
      else (w, s1.drop w.length) :: extraWordsList (s1.drop w.length) n

/-- Regex backtracking over the number of extra words: try the greedy
count first, then fewer, until the closing word boundary holds. -/
def tryWordCounts (w1 : List Char) (r1 : List Char)
    (extras : List (List Char × List Char)) : Nat → Option (List (List Char))
  | 0 => if boundaryAfter r1 then some [w1] else none
  | k + 1 =>
    match extras.get? k with
    | some pr =>
        if boundaryAfter pr.2 then some (w1 :: (extras.take (k + 1)).map Prod.fst)
        else tryWordCounts w1 r1 extras k
    | none => tryWordCounts w1 r1 extras k

/-- Match the capture part (s+ letters+ (s+ letters+){0,maxExtra} b) right
after a keyword, returning the captured words. -/
def namePatAfterKw (rest : List Char) (maxExtra : Nat) : Option (List (List Char)) :=
  let ws1 := rest.takeWhile isWs
  if ws1.isEmpty then none
  else
    let s1 := rest.drop ws1.length
    let w1 := s1.takeWhile isSpanishAlpha
    if w1.isEmpty then none
    else
      let r1 := s1.drop w1.length
      let extras := extraWordsList r1 maxExtra
      tryWordCounts w1 r1 extras extras.length

/-- re.search with IGNORECASE of b kw s+ (capture), leftmost position. -/
def findNamePatternAux (prev : Option Char) (s : List Char) (kw : List Char)
    (maxExtra : Nat) : Option (List (List Char)) :=
  match (if boundaryBefore prev && lowerStr (s.take kw.length) = kw then
           namePatAfterKw (s.drop kw.length) maxExtra
         else none) with
  | some ws => some ws
  | none =>
    match s with
    | [] => none
    | c :: rest => findNamePatternAux (some c) rest kw maxExtra

def firstNamePatMatch (t : List Char) : List (String × Nat) → Option (List (List Char))
  | [] => none
  | (kw, mx) :: rest =>
    match findNamePatternAux none t kw.data mx with
    | some ws => some ws
    | none => firstNamePatMatch t rest

/-- Trailing-word trimming, placeholder rejection and capitalization of a
matched name, as in the body of the pattern loop. -/
def processNameMatch (ws : List (List Char)) : Option String :=
  let ws2 := (ws.reverse.dropWhile
    (fun w => (trailingStopWords.map String.data).contains (lowerStr w))).reverse
  if ws2.isEmpty then none
  else
    let name := joinSpace ws2
    if (badNameWords.map String.data).contains (lowerStr name) then none
    else some (strOf (joinSpace ((splitWs name).map pyCapitalize)))

/-- The context-gated fallback: a bare 1-4 word alphabetic reply counts as
a name only if the last bot line asked for the name. -/
def contextNameFallback (t : List Char) (history : String) : Option String :=
  if history.data = [] then none
  else
    let lines := splitOnChar history.data '\n'
    let lastBot :=
      ((lines.reverse.find? (fun l => "A:".data.isPrefixOf (pyStrip l))).map lowerStr).getD []
    if nameAskingPhrases.any (fun k => hasSub lastBot k.data) then
      let ws := splitWs t
      if 1 ≤ ws.length && ws.length ≤ 4 &&
         ws.all (fun w => w.all (fun c => isSpanishAlpha c || c = '.')) &&
         !(badNameWords.map String.data).contains (lowerStr (ws.headD [])) then
        some (strOf (joinSpace (ws.map pyCapitalize)))
      else none
    else none

/-- _extract_name_from_text. -/
def extractNameFromText (text history : String) : Option String :=
  let t := pyStrip text.data
  if t = [] then none
  else if t.any (fun c => isDigitChar c || c ∈ ['?', '¿', '!', '¡']) then none
  else
    match firstNamePatMatch t
        [("me llamo", 3), ("soy", 3), ("mi nombre es", 3), ("con", 2)] with
    | some ws => processNameMatch ws
    | none => contextNameFallback t history

/-! ## conversation_logic.py: inventory items and interest extraction -/

/-- A normalized inventory item, with the keys produced by
InventoryService.load. -/
structure Item where
  Marca : String
  Modelo : String
  Anio : String
  Precio : String
  photos : String
deriving Repr, DecidableEq

/-- _safe_get(item, keys) for the Modelo lookup: the stripped model name. -/
def itemModelo (it : Item) : List Char := pyStrip it.Modelo.data

/-- _extract_photos_from_item: split the photos cell on | and keep the
pieces that start with http. -/
def extractPhotosFromItem (it : Item) : List String :=
  (((splitOnChar (pyStrip it.photos.data) '|').map pyStrip).filter
    (fun u => "http".data.isPrefixOf u)).map strOf

/-- The noise-token set excluded from interest matching. -/
def interestNoise : List String :=
  ["foton", "freightliner", "camion", "camión",
   "esta", "este", "estos", "estas", "estan", "están",
   "gris", "azul", "rojo", "negro", "blanco", "plata",
   "at", "mt", "diesel"]

/-- Tokens of a normalized model name usable for matching: length at least
2 and not a noise word. -/
def modelTokens (modeloNorm : List Char) : List (List Char) :=
  (splitWs modeloNorm).filter
    (fun tk => 2 ≤ tk.length && !(interestNoise.map String.data).contains tk)

/-- The score of one model: +2 per word-bounded token hit in the user
message, +1 per hit in the bot reply. -/
def interestScore (msgN repN modeloNorm : List Char) : Nat :=
  (modelTokens modeloNorm).foldl
    (fun acc tok =>
      acc + (if hasWordBounded msgN tok then 2 else 0) +
        (if hasWordBounded repN tok then 1 else 0)) 0

/-- The accumulator loop of _extract_interest_from_messages: keep the
first model reaching a strictly higher score. -/
def interestFold (msgN repN : List Char) :
    List Item → Option String × Nat → Option String × Nat
  | [], acc => acc
  | it :: rest, (best, bestScore) =>
    let modelo := itemModelo it
    if modelo = [] then interestFold msgN repN rest (best, bestScore)
    else
      let toks := modelTokens (normalizeSpanish modelo)
      if toks = [] then interestFold msgN repN rest (best, bestScore)
      else
        let score := interestScore msgN repN (normalizeSpanish modelo)
        if bestScore < score then interestFold msgN repN rest (some (strOf modelo), score)
        else interestFold msgN repN rest (best, bestScore)

/-- _extract_interest_from_messages. -/
def extractInterestFromMessages (userMessage reply : String) (items : List Item) :
    Option String :=
  if items = [] then none
  else
    let msgN := normalizeSpanish userMessage.data
    let repN := normalizeSpanish reply.data
    let r := interestFold msgN repN items (none, 0)
    if 2 ≤ r.2 then r.1 else none

/-! ## conversation_logic.py: photo selection with cursor memory -/

/-- re.search of b(alt1|..|altn) s+ word b (the singular-photo-question
pattern). -/
def altWsWordAux (prev : Option Char) (s : List Char) (alts : List (List Char))
    (word : List Char) : Bool :=
  (boundaryBefore prev &&
    alts.any (fun a =>
      a.isPrefixOf s &&
      (let r := s.drop a.length
       let ws := r.takeWhile isWs
       !ws.isEmpty && word.isPrefixOf (r.drop ws.length) &&
         boundaryAfter ((r.drop ws.length).drop word.length)))) ||
  (match s with
   | [] => false
   | c :: rest => altWsWordAux (some c) rest alts word)

def altWsWord (s : List Char) (alts : List String) (word : String) : Bool :=
  altWsWordAux none s (alts.map String.data) word.data

def photoVerbs1 : List String :=
  ["mandame", "mándame", "pasame", "pásame", "enviame", "envíame",
   "comparteme", "compárteme"]

def photoNouns1 : List String := ["foto", "fotos", "imagen", "imagenes", "imágenes"]

/-- The explicit photo-request patterns of _pick_media_urls. -/
def explicitPhotoRequest (msg : List Char) : Bool :=
  gapMatch msg photoVerbs1 photoNouns1 10 ||
  gapMatch msg ["ver", "quiero"] photoNouns1 10 ||
  gapMatch msg ["enseñame", "enséñame", "muestrame", "muéstrame"] ["foto", "fotos"] 10 ||
  hasWordBoundedS msg "fotos"

def singularPhotoQuestion (msg : List Char) : Bool :=
  altWsWord msg ["esta", "esa", "la", "cual", "cuál"] "foto"

def contextPhotoKeywords : List String :=
  ["otra foto", "mas fotos", "más fotos", "siguiente foto", "otra imagen"]

/-- The scoring noise words of priority B in _pick_media_urls (a smaller
set than the interest-extraction one). -/
def pickNoiseB : List String :=
  ["foton", "freightliner", "camion", "camión",
   "esta", "estan", "están",
   "gris", "azul", "rojo", "negro", "blanco", "plata",
   "at", "mt", "diesel"]

/-- Priority B of target resolution: keyword scoring, +3 in the user
message and +1 in the reply, threshold 3, first strict maximum. -/
def pickTargetFoldB (msg repN : List Char) :
    List Item → Option (Item × List Char) × Nat → Option (Item × List Char) × Nat
  | [], acc => acc
  | it :: rest, (best, bestScore) =>
    let modelo := itemModelo it
    if modelo = [] then pickTargetFoldB msg repN rest (best, bestScore)
    else
      let parts := (splitWs (normalizeSpanish modelo)).filter
        (fun p => 2 ≤ p.length && !(pickNoiseB.map String.data).contains p)
      let score := parts.foldl
        (fun acc2 p =>
          acc2 + (if hasWordBounded msg p then 3 else 0) +
            (if hasWordBounded repN p then 1 else 0)) 0
      if bestScore < score then pickTargetFoldB msg repN rest (some (it, modelo), score)
      else pickTargetFoldB msg repN rest (best, bestScore)

/-- Step 4 of _pick_media_urls: which inventory item the photos should
come from, and its model name. -/
def resolvePhotoTarget (msg repN : List Char) (items : List Item)
    (lastInterest : List Char) : Option (Item × List Char) :=
  let priorityA : Option (Item × List Char) :=
    if lastInterest ≠ [] then
      let interestNorm := normalizeSpanish lastInterest
      let interestTokens := (splitWs interestNorm).filter
        (fun p => 2 ≤ p.length && !(interestNoise.map String.data).contains p)
      if interestTokens.any (fun tok => hasWordBounded msg tok) then
        (items.find? (fun it =>
          normalizeSpanish (itemModelo it) = interestNorm ||
          interestTokens.any (fun tok => hasSub (normalizeSpanish (itemModelo it)) tok))).map
          (fun it => (it, itemModelo it))
      else none
    else none
  match priorityA with
  | some t => some t
  | none =>
    let rB := pickTargetFoldB msg repN items (none, 0)
    match (if 3 ≤ rB.2 then rB.1 else none) with
    | some t => some t
    | none =>
      if lastInterest ≠ [] then
        (items.find? (fun it =>
          normalizeSpanish (itemModelo it) = normalizeSpanish lastInterest)).map
          (fun it => (it, itemModelo it))
      else none

/-- Step 7 of _pick_media_urls: page selection given the effective cursor.
Returns the selected urls and the new stored cursor. -/
def pagePhotos (urls : List String) (idx : Nat) (wantsNext : Bool) : List String × Nat :=
  if wantsNext then
    if idx < urls.length then ((urls.drop idx).take 1, idx + 1)
    else (urls.take 1, 1)
  else
    let endIdx := min (idx + 3) urls.length
    let sel := (urls.drop idx).take (endIdx - idx)
    if sel = [] then (urls.take (min 3 urls.length), min 3 urls.length)
    else (sel, endIdx)

/-- The outcome of _pick_media_urls: the selected urls and the photo
cursor fields of the (mutated) context. -/
structure PickResult where
  urls : List String
  photoModel : Option String
  photoIndex : Option Nat
deriving Repr, DecidableEq

/-- _pick_media_urls.  The context fields read and written are passed and
returned explicitly (the Python function mutates the dict in place). -/
def pickMediaUrls (userMessage reply : String) (items : List Item)
    (lastInterestRaw : String) (photoModel : Option String)
    (photoIndex : Option Nat) : PickResult :=
  let unchanged : PickResult := ⟨[], photoModel, photoIndex⟩
  let msg := normalizeSpanish userMessage.data
  if containsAnyS msg ["ubicacion", "ubicación", "donde estan", "dónde están",
      "direccion", "dirección", "mapa", "donde se ubican"] then unchanged
  else if items = [] then unchanged
  else
    let currentPhotoModel := pyStrip (photoModel.getD "").data
    let explicitReq := explicitPhotoRequest msg && !singularPhotoQuestion msg
    let contextReq := currentPhotoModel ≠ [] && containsAnyS msg contextPhotoKeywords
    if !(explicitReq || contextReq) then unchanged
    else
      let lastInterest := pyStrip lastInterestRaw.data
      let idx0 : Nat := photoIndex.getD 0
      let repN := normalizeSpanish reply.data
      match resolvePhotoTarget msg repN items lastInterest with
      | none => unchanged
      | some (it, targetName) =>
        let urls := extractPhotosFromItem it
        if urls = [] then unchanged
        else
          let changed := normalizeSpanish targetName ≠ normalizeSpanish currentPhotoModel
          let idx1 := if changed then 0 else idx0
          let newModel := if changed then some (strOf targetName) else photoModel
          let wantsNext := containsAnyS msg ["otra", "mas", "más", "siguiente"]
          let pg := pagePhotos urls idx1 wantsNext
          ⟨pg.1, newModel, some pg.2⟩

/-! ## conversation_logic.py: reply sanitization -/

/-- Case-insensitive match of a sequence of words separated by s+ at the
head of s; returns the matched length. -/
def matchPhraseWSAt : List Char → List (List Char) → Option Nat
  | _, [] => some 0
  | s, [w] =>
    if w.isPrefixOf (lowerStr (s.take w.length)) && w.length ≤ s.length then some w.length
    else none
  | s, w :: ws =>
    if w.isPrefixOf (lowerStr (s.take w.length)) && w.length ≤ s.length then
      let r := s.drop w.length
      let g := r.takeWhile isWs
      if g.isEmpty then none
      else
        match matchPhraseWSAt (r.drop g.length) ws with
        | some n => some (w.length + g.length + n)
        | none => none
    else none

/-- re.sub of a words-with-s+ pattern (IGNORECASE) by a fixed replacement,
all occurrences, scanning the original left to right. -/
def replacePhraseAllAux : Nat → List Char → List (List Char) → List Char → List Char
  | 0, s, _, _ => s
  | fuel + 1, s, words, repl =>
    match s with
    | [] => []
    | c :: rest =>
      match matchPhraseWSAt s words with
      | some n =>
        if n = 0 then c :: replacePhraseAllAux fuel rest words repl
        else repl ++ replacePhraseAllAux fuel (s.drop n) words repl
      | none => c :: replacePhraseAllAux fuel rest words repl

def replacePhraseAll (s : List Char) (words : List String) (repl : String) : List Char :=
  replacePhraseAllAux s.length s (words.map String.data) repl.data

/-- re.search (IGNORECASE) of a words-with-s+ pattern anywhere in s. -/
def hasPhraseWSAux (ws : List (List Char)) : List Char → Bool
  | [] => (matchPhraseWSAt [] ws).isSome
  | c :: rest =>
    match matchPhraseWSAt (c :: rest) ws with
    | some _ => true
    | none => hasPhraseWSAux ws rest

def hasPhraseWS (s : List Char) (words : List String) : Bool :=
  hasPhraseWSAux (words.map String.data) s

/-- The bad-phrase patterns of _sanitize_reply_if_photos_attached, with the
im[aá]genes character class expanded into both spellings. -/
def sanitizeBadPhrases : List (List String) :=
  [["no", "puedo", "enviar", "fotos"],
   ["no", "puedo", "mandar", "fotos"],
   ["no", "tengo", "fotos"],
   ["no", "puedo", "enviar", "imagenes"],
   ["no", "puedo", "enviar", "imágenes"],
   ["no", "puedo", "mandar", "imagenes"],
   ["no", "puedo", "mandar", "imágenes"],
   ["soy", "una", "ia"],
   ["soy", "un", "modelo"]]

/-- _sanitize_reply_if_photos_attached. -/
def sanitizeReplyIfPhotos (reply : List Char) (mediaUrls : List String) : List Char :=
  if mediaUrls = [] then reply
  else
    sanitizeBadPhrases.foldl
      (fun acc p => replacePhraseAll acc p "Claro, aquí tienes.") reply

/-- The photo-promise patterns checked when no media was found. -/
def photoPromiseMatches (reply : List Char) : Bool :=
  hasPhraseWS reply ["aqui", "tienes"] || hasPhraseWS reply ["aquí", "tienes"] ||
  hasPhraseWS reply ["te", "mando", "fotos"] || hasPhraseWS reply ["te", "mando", "las", "fotos"] ||
  hasPhraseWS reply ["te", "envío", "fotos"] || hasPhraseWS reply ["te", "envío", "las", "fotos"] ||
  hasPhraseWS reply ["te", "comparto", "fotos"] || hasPhraseWS reply ["te", "comparto", "las", "fotos"]

/-- _strip_markdown_links: rewrite [text](http-url) to the bare url. -/
def linkAtHead (s : List Char) : Option (List Char × List Char) :=
  match s with
  | '[' :: r1 =>
    let txt := r1.takeWhile (fun c => c ≠ ']')
    if txt.isEmpty then none
    else
      match r1.drop txt.length with
      | ']' :: '(' :: r3 =>
        let scheme : Option (List Char × List Char) :=
          if "https://".data.isPrefixOf r3 then some ("https://".data, r3.drop 8)
          else if "http://".data.isPrefixOf r3 then some ("http://".data, r3.drop 7)
          else none
        match scheme with
        | none => none
        | some (sch, r4) =>
          let body := r4.takeWhile (fun c => c ≠ ')')
          if body.isEmpty then none
          else
            match r4.drop body.length with
            | ')' :: r5 => some (sch ++ body, r5)
            | _ => none
      | _ => none
  | _ => none

def stripMarkdownLinksAux : Nat → List Char → List Char
  | 0, s => s
  | fuel + 1, s =>
    match s with
    | [] => []
    | c :: rest =>
      match linkAtHead s with
      | some (url, after) => url ++ stripMarkdownLinksAux fuel after
      | none => c :: stripMarkdownLinksAux fuel rest

def stripMarkdownLinks (s : List Char) : List Char :=
  stripMarkdownLinksAux s.length s

/-! ## conversation_logic.py: PDF request detection -/

/-- One entry of the financing JSON file (data/financing.json), the fields
read by _detect_pdf_request. -/
structure FinInfo where
  nombre : String
  anio : Nat
  pdfFicha : Option String
  pdfCorrida : Option String
deriving Repr, DecidableEq

/-- The result dict of _detect_pdf_request, one constructor per key shape. -/
inductive PdfInfo
  | sinModelo (tipo : String)
  | sinDatos (tipo : String)
  | sinPdf (tipo : String) (modelo : String)
  | found (tipo : String) (pdfUrl : String) (mensaje : String) (modelo : String)
deriving Repr, DecidableEq

def PdfInfo.tipo : PdfInfo → String
  | .sinModelo t => t
  | .sinDatos t => t
  | .sinPdf t _ => t
  | .found t _ _ _ => t

def pdfActionVerbs : List String :=
  ["mandame", "mándame", "mandala", "mándala", "mandamela", "mándamela",
   "pasame", "pásame", "pasala", "pásala", "pasamela", "pásamela",
   "enviame", "envíame", "enviala", "envíala", "enviamela", "envíamela",
   "comparteme", "compárteme", "compartela", "compártela",
   "dame", "dámela", "la quiero", "si la quiero", "sí la quiero",
   "quiero ver", "quiero la"]

def fichaKeywordsDirect : List String :=
  ["ficha", "fiche", "fixa", "ficah",
   "ficha tecnica", "ficha técnica",
   "hoja tecnica", "hoja técnica", "datos tecnicos", "datos técnicos",
   "specs"]

def corridaKeywordsDirect : List String :=
  ["corrida", "corrda", "corida",
   "simulacion", "simulación",
   "tabla de pagos",
   "mensualidades pdf"]

def corridaKeywordsAmbiguous : List String :=
  ["financiamiento", "especificaciones", "caracteristicas", "características",
   "pagos mensuales", "plan de pagos", "cuotas"]

/-- The pdf_type decision of _detect_pdf_request (stages 1-3). -/
def detectPdfType (msg : List Char) (lastPdfRequestType : Option String) : Option String :=
  let hasActionVerb := containsAnyS msg pdfActionVerbs
  let t1 : Option String :=
    if containsAnyS msg fichaKeywordsDirect then some "ficha"
    else if containsAnyS msg corridaKeywordsDirect then some "corrida"
    else none
  let t2 : Option String :=
    match t1 with
    | some x => some x
    | none =>
      if hasActionVerb then
        if containsAnyS msg ["especificaciones", "caracteristicas", "características"] then
          some "ficha"
        else if containsAnyS msg corridaKeywordsAmbiguous then some "corrida"
        else none
      else none
  match t2 with
  | some x => some x
  | none =>
    if containsAnyS msg ["foto", "fotos", "imagen", "imagenes", "imágenes",
        "video", "videos"] then none
    else
      match lastPdfRequestType with
      | some lt => if lt ≠ "" && hasActionVerb then some lt else none
      | none => none

/-- Distinct tokens of a financing entry usable for matching: union of the
key tokens (underscores as spaces) and the name tokens. -/
def finEntryTokens (key : String) (info : FinInfo) : List (List Char) :=
  ((splitWs (replaceAll (lowerStr key.data) "_".data " ".data)) ++
    splitWs (lowerStr info.nombre.data)).eraseDups

/-- The score of one financing entry against the normalized interest. -/
def finEntryScore (interestNorm : List Char) (lastInterestRaw : List Char)
    (key : String) (info : FinInfo) : Nat :=
  let base := (finEntryTokens key info).countP
    (fun tok => 2 ≤ tok.length &&
      !(["foton", "freightliner"].map String.data).contains tok &&
      hasSub interestNorm tok)
  let yearStr := natToDigits info.anio
  base + (if hasSub interestNorm yearStr || hasSub lastInterestRaw yearStr then 3 else 0)

/-- The financing-entry selection loop: accept score at least 2, prefer a
strictly larger score, tie-break on the more recent year. -/
def finMatchFold (interestNorm lastInterestRaw : List Char) :
    List (String × FinInfo) → Option (String × FinInfo) × Nat × Nat →
      Option (String × FinInfo) × Nat × Nat
  | [], acc => acc
  | (key, info) :: rest, (best, bestScore, bestYear) =>
    let score := finEntryScore interestNorm lastInterestRaw key info
    if 2 ≤ score &&
       (best.isNone || bestScore < score || (score = bestScore && bestYear < info.anio)) then
      finMatchFold interestNorm lastInterestRaw rest (some (key, info), score, info.anio)
    else finMatchFold interestNorm lastInterestRaw rest (best, bestScore, bestYear)

/-- _detect_pdf_request, with the financing file contents as a parameter. -/
def detectPdfRequest (userMessage lastInterest : String)
    (lastPdfRequestType : Option String)
    (financing : List (String × FinInfo)) : Option PdfInfo :=
  let msg := lowerStr userMessage.data
  match detectPdfType msg lastPdfRequestType with
  | none => none
  | some pdfType =>
    if lastInterest = "" then some (.sinModelo pdfType)
    else if financing = [] then some (.sinDatos pdfType)
    else
      let interestNorm := pyStrip
        (replaceAll (replaceAll (replaceAll (replaceAll (lowerStr lastInterest.data)
          "foton".data []) "freightliner".data []) "diesel".data []) "4x4".data [])
      match (finMatchFold interestNorm lastInterest.data financing (none, 0, 0)).1 with
      | none => some (.sinModelo pdfType)
      | some (_, info) =>
        if pdfType = "ficha" then
          match info.pdfFicha with
          | none => some (.sinPdf pdfType info.nombre)
          | some url =>
            some (.found pdfType url "Claro, te comparto la ficha tecnica en PDF."
              (info.nombre ++ " " ++ strOf (natToDigits info.anio)))
        else
          match info.pdfCorrida with
          | none => some (.sinPdf pdfType info.nombre)
          | some url =>
            some (.found pdfType url
              "Listo, te comparto la simulacion de financiamiento en PDF. Es ilustrativa e incluye intereses."
              (info.nombre ++ " " ++ strOf (natToDigits info.anio)))

/-! ## conversation_logic.py: embedded JSON lead block -/

def backtickChar : Char := Char.ofNat 96

def fenceJson : List Char := [backtickChar, backtickChar, backtickChar, 'j', 's', 'o', 'n']

def fenceClose : List Char := [backtickChar, backtickChar, backtickChar]

/-- After a closing brace candidate: optional whitespace then the closing
fence. -/
def fenceCloseOk (rest : List Char) : Bool :=
  fenceClose.isPrefixOf (rest.dropWhile isWs)

/-- Scan for the lazy closing brace of the fenced JSON group: the first
right brace followed by optional whitespace and the closing fence. -/
def findJsonClose : List Char → List Char → Option (List Char × List Char)
  | _, [] => none
  | acc, c :: rest =>
    if c = '}' && fenceCloseOk rest then some (acc.reverse, rest)
    else findJsonClose (c :: acc) rest

/-- The fenced-JSON match attempt anchored at the head of s. -/
def jsonBlockAtHead (s : List Char) : Option (List Char × List Char) :=
  if lowerStr (s.take 7) = fenceJson then
    let afterTag := s.drop 7
    let ws1 := afterTag.takeWhile isWs
    let r1 := afterTag.drop ws1.length
    match r1 with
    | '{' :: r2 =>
        match findJsonClose [] r2 with
        | some (middle, afterBrace) =>
          let inner := '{' :: middle ++ ['}']
          let ws2 := afterBrace.takeWhile isWs
          some (s.take 7 ++ ws1 ++ inner ++ ws2 ++ fenceClose, inner)
        | none => none
    | _ => none
  else none

/-- re.search (DOTALL, IGNORECASE) of the fenced-JSON pattern; returns the
full matched text (group 0) and the brace group (group 1). -/
def findJsonBlock : List Char → Option (List Char × List Char)
  | [] => jsonBlockAtHead []
  | c :: rest =>
    match jsonBlockAtHead (c :: rest) with
    | some r => some r
    | none => findJsonBlock rest

/-- A JSON string literal without escapes (json.loads restricted to the
payload shapes the prompt mandates; an escape makes the parse fail, which
the caller treats like a malformed payload). -/
def parseJString : List Char → Option (List Char × List Char)
  | '"' :: rest =>
    let rec go : List Char → List Char → Option (List Char × List Char)
      | _, [] => none
      | acc, c :: r =>
        if c = '"' then some (acc.reverse, r)
        else if c = '\\' then none
        else go (c :: acc) r
    go [] rest
  | _ => none

/-- Key-value pairs of a flat JSON object of string fields; s starts right
after the opening brace. -/
def parseFlatPairs : Nat → List Char → List (String × String) →
    Option (List (String × String) × List Char)
  | 0, _, _ => none
  | fuel + 1, s, acc =>
    let s1 := s.dropWhile isWs
    match s1 with
    | '}' :: r => some (acc.reverse, r)
    | _ =>
      match parseJString s1 with
      | none => none
      | some (key, r1) =>
        let r2 := r1.dropWhile isWs
        match r2 with
        | ':' :: r3 =>
          let r4 := r3.dropWhile isWs
          match parseJString r4 with
          | none => none
          | some (v, r5) =>
            let r6 := r5.dropWhile isWs
            match r6 with
            | ',' :: r7 => parseFlatPairs fuel r7 ((strOf key, strOf v) :: acc)
            | '}' :: r7 => some (((strOf key, strOf v) :: acc).reverse, r7)
            | _ => none
        | _ => none

/-- Lookup with the last-occurrence-wins semantics of json.loads on
duplicate keys. -/
def jsonGet (fields : List (String × String)) (key : String) : Option String :=
  (fields.reverse.find? (fun p => p.1 = key)).map Prod.snd

/-- Parse the payload of the fenced block and extract the lead_event
object, if it is present and is an object of string fields. -/
def parseLeadEvent : List Char → Option Lead
  | s =>
    let s1 := s.dropWhile isWs
    match s1 with
    | '{' :: r =>
      let rec findKey : Nat → List Char → Option Lead
        | 0, _ => none
        | fuel + 1, t =>
          let t1 := t.dropWhile isWs
          match parseJString t1 with
          | none => none
          | some (key, r1) =>
            let r2 := r1.dropWhile isWs
            match r2 with
            | ':' :: r3 =>
              let r4 := r3.dropWhile isWs
              if strOf key = "lead_event" then
                match r4 with
                | '{' :: r5 =>
                  match parseFlatPairs r5.length r5 [] with
                  | none => none
                  | some (fields, _) =>
                    some ⟨(jsonGet fields "nombre").getD "",
                          (jsonGet fields "interes").getD "",
                          (jsonGet fields "cita").getD "",
                          (jsonGet fields "pago").getD ""⟩
                | _ => none
              else
                match parseJString r4 with
                | some (_, r5) =>
                  let r6 := r5.dropWhile isWs
                  match r6 with
                  | ',' :: r7 => findKey fuel r7
                  | _ => none
                | none => none
            | _ => none
      findKey r.length r
    | _ => none

/-! ## conversation_logic.py: handle_message

The session context dict is modeled as a structure; a missing dict key is
the empty string (string-typed fields, which the code reads with
or-empty defaults) or none (turn_count, the photo cursor and the pdf
request memory, which the code reads with explicit defaults).  The LLM
call with failover is an external collaborator and enters as a parameter:
some raw reply on success, none when both providers are exhausted (the
code turns any such failure into a fixed apology sentence).  The
financing JSON file is likewise a parameter.  The prompt-building helpers
of the source (system prompt, inventory text, financing text, name-gate
reminder) only feed the LLM request and do not influence any returned
value, so they have no embedded counterpart. -/

structure Ctx where
  history : String
  user_name : String
  last_interest : String
  last_appointment : String
  last_payment : String
  turn_count : Option Int
  photo_model : Option String
  photo_index : Option Nat
  last_pdf_request_type : Option String
  funnel_stage : Option String
deriving Repr, DecidableEq

def Ctx.empty : Ctx := ⟨"", "", "", "", "", none, none, none, none, none⟩

structure HandleResult where
  reply : String
  new_state : String
  context : Ctx
  media_urls : List String
  lead_info : Option Lead
deriving Repr, DecidableEq

def apologySentence : String := "Dame un momento, estoy consultando sistema..."

/-- The prefix-artifact cleanup re.sub of (Adrian|Asesor|Bot) s* : s* at
the start, IGNORECASE, followed by the outer strip. -/
def stripSpeakerLabel (s : List Char) : List Char :=
  let t := pyStrip s
  let attempt := (["adrian", "asesor", "bot"].map String.data).findSome? (fun lab =>
    if lowerStr (t.take lab.length) = lab then
      let r := t.drop lab.length
      let r1 := r.dropWhile isWs
      match r1 with
      | ':' :: r2 => some (r2.dropWhile isWs)
      | _ => none
    else none)
  pyStrip (attempt.getD t)

/-- The success branch of the LLM call: infer interest, extract and strip
the optional fenced JSON lead block, merge known facts into the candidate
and validate it.  Returns (reply_clean, last_interest, lead_info). -/
def llmSuccessBranch (userMessage rawReply : String) (items : List Item)
    (lastInterest0 savedName lastAppointment lastPayment : List Char) :
    List Char × List Char × Option Lead :=
  let lastInterest :=
    match extractInterestFromMessages userMessage rawReply items with
    | some i => i.data
    | none => lastInterest0
  match findJsonBlock rawReply.data with
  | none => (rawReply.data, lastInterest, none)
  | some (group0, inner) =>
    let replyClean := pyStrip (replaceAll rawReply.data group0 [])
    match parseLeadEvent inner with
    | none => (replyClean, lastInterest, none)
    | some cand =>
      let merged : Lead :=
        ⟨if pyStrip cand.nombre.data = [] && savedName ≠ [] then strOf savedName
          else cand.nombre,
         if pyStrip cand.interes.data = [] && lastInterest ≠ [] then strOf lastInterest
          else cand.interes,
         if pyStrip cand.cita.data = [] && lastAppointment ≠ [] then strOf lastAppointment
          else cand.cita,
         if pyStrip cand.pago.data = [] && lastPayment ≠ [] then strOf lastPayment
          else cand.pago⟩
      if leadIsValid merged then (replyClean, lastInterest, some merged)
      else (replyClean, lastInterest, none)

/-- The Monday failsafe: emit a lead from session-accumulated facts when
the model produced none. -/
def monFailsafe (userMessage : String)
    (savedName lastInterest lastAppointment lastPayment : List Char)
    (leadFromModel : Option Lead) : Option Lead :=
  match leadFromModel with
  | some l => some l
  | none =>
    let candidate : Lead :=
      ⟨strOf savedName, strOf lastInterest, strOf lastAppointment,
       if lastPayment = [] then "Por definir" else strOf lastPayment⟩
    if leadIsValid candidate then some candidate
    else if savedName ≠ [] && lastInterest ≠ [] && lastAppointment ≠ [] then
      if messageConfirmsAppointment userMessage ||
         (pyStrip userMessage.data).length ≤ 15 then
        let candidate2 : Lead :=
          ⟨candidate.nombre, candidate.interes, candidate.cita,
           if candidate.pago = "" then "Por definir" else candidate.pago⟩
        if leadIsValid candidate2 then some candidate2 else none
      else none
    else none

/-- The tail of handle_message: apply the PDF-request outcome to the
reply, the funnel stage and the context, and assemble the result. -/
def pdfFinish (replyClean4 : List Char) (mediaUrls : List String)
    (leadInfo : Option Lead) (funnel3 : String) (ctx3 : Ctx)
    (pdfInfo : Option PdfInfo) : HandleResult :=
  match pdfInfo with
  | none =>
    { reply := strOf replyClean4, new_state := "chatting", context := ctx3,
      media_urls := mediaUrls, lead_info := leadInfo }
  | some p =>
    let ctx4 : Ctx :=
      if p.tipo ≠ "" then { ctx3 with last_pdf_request_type := some p.tipo } else ctx3
    match p with
    | .found _ _ mensaje _ =>
      let advance := funnel3 ≠ "Sin Interes" &&
        (funnel3 = "1er Contacto" || funnel3 = "Intención")
      let ctx5 : Ctx :=
        if advance then { ctx4 with funnel_stage := some "Cotización" } else ctx4
      { reply := mensaje, new_state := "chatting", context := ctx5,
        media_urls := mediaUrls, lead_info := leadInfo }
    | _ =>
      { reply := strOf replyClean4, new_state := "chatting", context := ctx4,
        media_urls := mediaUrls, lead_info := leadInfo }

/-- handle_message. -/
def handleMessage (userMessage : String) (items : List Item) (state : String)
    (ctx : Ctx) (llm : Option String) (financing : List (String × FinInfo)) :
    HandleResult :=
  let history := pyStrip ctx.history.data
  if lowerStr (pyStrip userMessage.data) = "/silencio".data then
    let newHistory := pyStrip (history ++ "\nC: ".data ++ userMessage.data ++
      "\nA: Perfecto. Modo silencio activado.".data)
    { reply := "Perfecto. Modo silencio activado.", new_state := "silent",
      context := { Ctx.empty with history := strOf (takeLast newHistory 4000) },
      media_urls := [], lead_info := none }
  else if state = "silent" then
    { reply := "", new_state := "silent", context := ctx,
      media_urls := [], lead_info := none }
  else
    let savedName0 := pyStrip ctx.user_name.data
    let lastInterest0 := pyStrip ctx.last_interest.data
    let lastAppointment0 := pyStrip ctx.last_appointment.data
    let lastPayment0 := pyStrip ctx.last_payment.data
    let turnCount : Int := ctx.turn_count.getD 0 + 1
    let savedName :=
      match extractNameFromText userMessage (strOf history) with
      | some n => n.data
      | none => savedName0
    let lastPayment :=
      match extractPaymentFromText userMessage with
      | some p => p.data
      | none => lastPayment0
    let lastAppointment :=
      match extractAppointmentFromText userMessage with
      | some a => a.data
      | none => lastAppointment0
    let branch :=
      match llm with
      | some rawReply =>
        llmSuccessBranch userMessage rawReply items lastInterest0 savedName
          lastAppointment lastPayment
      | none => (apologySentence.data, lastInterest0, none)
    let lastInterest := branch.2.1
    let replyClean1 := stripSpeakerLabel branch.1
    let ctx1 : Ctx :=
      { history := strOf (takeLast (pyStrip (history ++ "\nC: ".data ++
          userMessage.data ++ "\nA: ".data ++ replyClean1)) 4000),
        user_name := strOf savedName,
        last_interest := strOf lastInterest,
        last_appointment := strOf lastAppointment,
        last_payment := strOf lastPayment,
        turn_count := some turnCount,
        photo_model := ctx.photo_model,
        photo_index := ctx.photo_index,
        last_pdf_request_type := ctx.last_pdf_request_type,
        funnel_stage := none }
    let pick := pickMediaUrls userMessage (strOf replyClean1) items
      ctx1.last_interest ctx1.photo_model ctx1.photo_index
    let ctx2 : Ctx :=
      { ctx1 with photo_model := pick.photoModel, photo_index := pick.photoIndex }
    let mediaUrls := pick.urls
    let replyClean2 := sanitizeReplyIfPhotos replyClean1 mediaUrls
    let replyClean3 :=
      if mediaUrls = [] &&
         containsAnyS (lowerStr userMessage.data)
           ["foto", "fotos", "imagen", "imágenes", "imagenes"] &&
         photoPromiseMatches replyClean2 then
        "Por el momento no tengo fotos de ese modelo en sistema. Un asesor te las puede compartir.".data
      else replyClean2
    let replyClean4 := stripMarkdownLinks replyClean3
    let leadInfo := monFailsafe userMessage savedName lastInterest lastAppointment
      lastPayment branch.2.2
    let funnel0 := "1er Contacto"
    let funnel1 := if lastInterest ≠ [] then "Intención" else funnel0
    let funnel2 := if lastAppointment ≠ [] then "Cita Programada" else funnel1
    let funnel3 := if detectDisinterest userMessage then "Sin Interes" else funnel2
    let ctx3 : Ctx := { ctx2 with funnel_stage := some funnel3 }
    pdfFinish replyClean4 mediaUrls leadInfo funnel3 ctx3
      (detectPdfRequest userMessage (strOf lastInterest) ctx3.last_pdf_request_type financing)

/-! ## main.py: events, handoff detection and global state

The Evolution transport, the audio transcription service, the SQLite
session store and the Monday client are external collaborators; their
responses enter as parameters and the outgoing calls are collected as an
effect record.  The response of each send call is not parsed (the code
tolerates an unparsable response and then skips the message-id tracking),
so the bot-sent-message-id set is only read here. -/

/-- The message object of an Evolution event, one constructor per shape
recognized by _extract_user_message. -/
inductive MsgObj
  | conversation (s : String)
  | extendedText (s : String)
  | image (caption : String)
  | audio
  | other
deriving Repr, DecidableEq

/-- _extract_user_message: the text and whether the event is audio. -/
def extractUserMessage (m : MsgObj) : String × Bool :=
  match m with
  | .conversation s => (s, false)
  | .extendedText s => (s, false)
  | .image caption => (if caption = "" then "(Envió una foto)" else caption, false)
  | .audio => ("", true)
  | .other => ("", false)

/-- _clean_phone_or_jid: keep only digits. -/
def cleanPhoneOrJid (s : List Char) : List Char := s.filter isDigitChar

/-- _message_looks_human: emoji, advisor phrases or human typos. -/
def messageLooksHuman (text : String) : Bool :=
  if text = "" then false
  else
    let lower := lowerStr text.data
    containsAnyS text.data
      ["😊", "👍", "🙏", "💪", "🚚", "✅", "❤️", "🔥", "👌", "😉", "😅",
       "🤝", "📞", "📱", "🎉", "💯"] ||
    containsAnyS lower
      ["un momento", "déjame verificar", "déjame revisar", "te marco", "te llamo",
       "te hablo", "estoy revisando", "dame un segundo", "aquí adrian", "soy adrian",
       "con adrian", "te contacto", "te escribo", "ahora te", "espérame", "un sec"] ||
    containsAnyS lower
      ["aver", "haber si", "ps si", "nel", "simon", "sisas", "ok ok", "oks"]

/-- The silence value stored per conversation: an expiry timestamp or the
permanent flag set by the /silencio command. -/
inductive SilVal
  | timed (expiry : Int)
  | forever
deriving Repr, DecidableEq

def alistGet {α : Type} (l : List (String × α)) (k : String) : Option α :=
  (l.find? (fun p => p.1 = k)).map Prod.snd

def alistSet {α : Type} (l : List (String × α)) (k : String) (v : α) : List (String × α) :=
  (l.filter (fun p => p.1 ≠ k)) ++ [(k, v)]

def alistErase {α : Type} (l : List (String × α)) (k : String) : List (String × α) :=
  l.filter (fun p => p.1 ≠ k)

/-- GlobalState: the in-RAM dedup, silence and bot-message-tracking state. -/
structure GState where
  processedMessageIds : BOSet
  processedLeadIds : BOSet
  silencedUsers : List (String × SilVal)
  botSentMessageIds : BOSet
  botSentTexts : List (String × List String)
  lastBotMessageTime : List (String × Int)
deriving Repr, DecidableEq

/-- The fresh GlobalState built at startup, with the configured capacities. -/
def GState.start : GState :=
  ⟨BOSet.empty 4000, BOSet.empty 8000, [], BOSet.empty 2000, [], []⟩

structure BotSettings where
  ownerPhone : Option String
  autoReactivateMinutes : Int
  humanDetectionWindowSeconds : Int
deriving Repr, DecidableEq

/-- _is_bot_message: by tracked id, by recent exact text, or by the
trailing time window since the last bot send. -/
def isBotMessage (gs : GState) (remoteJid msgId msgText : String) (now : Int)
    (windowSecs : Int) : Bool :=
  (msgId ≠ "" && gs.botSentMessageIds.mem msgId) ||
  (match alistGet gs.botSentTexts remoteJid with
   | some texts => texts.contains msgText
   | none => false) ||
  (now - (alistGet gs.lastBotMessageTime remoteJid).getD 0 < windowSecs)

/-- One outgoing Evolution API send (text message or one media item). -/
structure SendReq where
  target : String
  text : String
  media : List String
deriving Repr, DecidableEq

def listTakeLast {α : Type} (l : List α) (n : Nat) : List α := l.drop (l.length - n)

/-- send_evolution_message: empty sends are dropped, media items go out
one call each with the caption on the last one, text sends update the
bot-sent-text cache (deque of 10) and the last-send timestamp. -/
def sendEvolutionMessage (gs : GState) (now : Int) (numberOrJid textRaw : String)
    (media : List String) : GState × List SendReq :=
  let text := strOf (pyStrip textRaw.data)
  if text = "" && media = [] then (gs, [])
  else
    let clean := strOf (cleanPhoneOrJid numberOrJid.data)
    if clean = "" then (gs, [])
    else if media ≠ [] then
      (gs, media.enum.map (fun iu =>
        ⟨clean, if iu.1 = media.length - 1 then text else "", [iu.2]⟩))
    else
      let jid := clean ++ "@s.whatsapp.net"
      let texts := (alistGet gs.botSentTexts jid).getD []
      let texts2 := listTakeLast (texts ++ [text]) 10
      ({ gs with
          botSentTexts := alistSet gs.botSentTexts jid texts2,
          lastBotMessageTime := alistSet gs.lastBotMessageTime jid now },
       [⟨clean, text, []⟩])

/-- notify_owner. -/
def notifyOwner (gs : GState) (now : Int) (settings : BotSettings)
    (userNumberOrJid userMessage botReply : String) (isLead : Bool) :
    GState × List SendReq :=
  match settings.ownerPhone with
  | none => (gs, [])
  | some owner =>
    let cleanClient := strOf (cleanPhoneOrJid userNumberOrJid.data)
    if isLead then
      sendEvolutionMessage gs now owner
        ("*NUEVO LEAD EN MONDAY*\n\nCliente: wa.me/" ++ cleanClient ++
         "\nEl bot cerró una cita. Revisa el tablero.") []
    else
      let kws := ["precio", "cuanto", "cuánto", "interesa", "verlo", "ubicacion",
        "ubicación", "dónde", "donde", "trato", "comprar", "informes", "info"]
      if !containsAnyS (lowerStr userMessage.data) kws then (gs, [])
      else
        sendEvolutionMessage gs now owner
          ("*Interés Detectado*\nCliente: wa.me/" ++ cleanClient ++
           "\nDijo: \"" ++ userMessage ++ "\"\nBot: \"" ++
           strOf (botReply.data.take 60) ++ "...\"") []

/-- The lead payload handed to MondayService.create_lead, after main.py
injects the phone and the external message id. -/
structure CrmLead where
  lead : Lead
  telefono : String
  externalId : String
deriving Repr, DecidableEq

/-- The observable effects of processing one inbound event. -/
structure Outcome where
  sends : List SendReq
  sessionWrite : Option (String × String × Ctx)
  crmLead : Option CrmLead
deriving Repr, DecidableEq

/-- One inbound Evolution webhook event. -/
structure Event where
  remoteJid : String
  fromMe : Bool
  msgId : String
  msg : MsgObj
deriving Repr, DecidableEq

/-- The external collaborators consulted while processing one event. -/
structure Externals where
  now : Int
  transcript : String
  session : Option (String × Ctx)
  items : List Item
  llm : Option String
  financing : List (String × FinInfo)
  settings : BotSettings

/-- The tail of process_single_event once a nonempty user message is in
hand: customer commands, session load, handle_message, session save,
reply send, lead dedup and CRM emission, owner alerts. -/
def psevWithText (gs : GState) (ext : Externals) (remoteJid msgId userMessage : String) :
    GState × Outcome :=
  if lowerStr userMessage.data = "/silencio".data then
    let gs1 := { gs with silencedUsers := alistSet gs.silencedUsers remoteJid .forever }
    let s1 := sendEvolutionMessage gs1 ext.now remoteJid
      "Bot desactivado. Un asesor humano te atenderá en breve." []
    match ext.settings.ownerPhone with
    | some owner =>
      let cleanClient := strOf ((splitOnChar remoteJid.data '@').headD [])
      let alert := "*HANDOFF ACTIVADO*\n\nEl chat con wa.me/" ++ cleanClient ++
        " ha sido pausado.\nEl bot NO responderá hasta que el cliente envíe '/activar'."
      let s2 := sendEvolutionMessage s1.1 ext.now owner alert []
      (s2.1, ⟨s1.2 ++ s2.2, none, none⟩)
    | none => (s1.1, ⟨s1.2, none, none⟩)
  else if lowerStr userMessage.data = "/activar".data then
    let gs1 := { gs with silencedUsers := alistErase gs.silencedUsers remoteJid }
    let s1 := sendEvolutionMessage gs1 ext.now remoteJid
      "Bot activado de nuevo. ¿En qué te ayudo?" []
    (s1.1, ⟨s1.2, none, none⟩)
  else
    let st := ext.session.getD ("start", Ctx.empty)
    let result := handleMessage userMessage ext.items st.1 st.2 ext.llm ext.financing
    let replyText := strOf (pyStrip result.reply.data)
    let sessionW := some (remoteJid, result.new_state, result.context)
    let s1 := sendEvolutionMessage gs ext.now remoteJid replyText result.media_urls
    match result.lead_info with
    | some lead =>
      let leadKey := remoteJid ++ "|" ++ msgId ++ "|lead"
      if s1.1.processedLeadIds.mem leadKey then
        (s1.1, ⟨s1.2, sessionW, none⟩)
      else
        let gs2 := { s1.1 with processedLeadIds := s1.1.processedLeadIds.add leadKey }
        let crm : CrmLead :=
          ⟨lead, strOf ((splitOnChar remoteJid.data '@').headD []), msgId⟩
        let n := notifyOwner gs2 ext.now ext.settings remoteJid userMessage replyText true
        (n.1, ⟨s1.2 ++ n.2, sessionW, some crm⟩)
    | none =>
      let n := notifyOwner s1.1 ext.now ext.settings remoteJid userMessage replyText false
      (n.1, ⟨s1.2 ++ n.2, sessionW, none⟩)

/-- The part of process_single_event after the silence gate: message
extraction and the audio-transcription fallback. -/
def psevAfterSilence (gs : GState) (ext : Externals) (remoteJid msgId : String)
    (msgObj : MsgObj) : GState × Outcome :=
  let em := extractUserMessage msgObj
  let userMessage0 := strOf (pyStrip em.1.data)
  if userMessage0 = "" && em.2 then
    if ext.transcript = "" then
      let s1 := sendEvolutionMessage gs ext.now remoteJid
        "Tuve un problema escuchando el audio. ¿Me lo puedes escribir o mandar de nuevo?" []
      (s1.1, ⟨s1.2, none, none⟩)
    else psevWithText gs ext remoteJid msgId ext.transcript
  else if userMessage0 = "" then (gs, ⟨[], none, none⟩)
  else psevWithText gs ext remoteJid msgId userMessage0

/-- process_single_event. -/
def processSingleEvent (gs : GState) (ev : Event) (ext : Externals) : GState × Outcome :=
  let remoteJid := strOf (pyStrip ev.remoteJid.data)
  let msgId := strOf (pyStrip ev.msgId.data)
  let nothing : Outcome := ⟨[], none, none⟩
  if remoteJid = "" then (gs, nothing)
  else if "@g.us".data.isSuffixOf remoteJid.data || hasSubS remoteJid.data "broadcast" then
    (gs, nothing)
  else if msgId ≠ "" && gs.processedMessageIds.mem msgId then (gs, nothing)
  else
    let gs1 :=
      if msgId ≠ "" then { gs with processedMessageIds := gs.processedMessageIds.add msgId }
      else gs
    if ev.fromMe then
      let msgText := strOf (pyStrip (extractUserMessage ev.msg).1.data)
      if isBotMessage gs1 remoteJid msgId msgText ext.now
          ext.settings.humanDetectionWindowSeconds then (gs1, nothing)
      else if messageLooksHuman msgText then
        let v : SilVal := .timed (ext.now + ext.settings.autoReactivateMinutes * 60)
        ({ gs1 with silencedUsers := alistSet gs1.silencedUsers remoteJid v }, nothing)
      else (gs1, nothing)
    else
      match alistGet gs1.silencedUsers remoteJid with
      | some (.timed expiry) =>
        if ext.now < expiry then (gs1, nothing)
        else
          psevAfterSilence
            { gs1 with silencedUsers := alistErase gs1.silencedUsers remoteJid }
            ext remoteJid msgId ev.msg
      | some .forever => (gs1, nothing)
      | none => psevAfterSilence gs1 ext remoteJid msgId ev.msg

/-! ## Theorems -/

theorem boset_add_maxlen (s : BOSet) (k : String) : (s.add k).maxlen = s.maxlen := by
  unfold BOSet.add
  split_ifs <;> rfl

theorem boset_add_size_le (s : BOSet) (k : String) (h1 : 1 ≤ s.maxlen)
    (h : s.size ≤ s.maxlen) : (s.add k).size ≤ s.maxlen := by
  unfold BOSet.add BOSet.size at *
  split_ifs with hmem hcap
  · exact h
  · simp only [List.length_append, List.length_tail, List.length_cons, List.length_nil]
    omega
  · simp only [List.length_append, List.length_cons, List.length_nil]
    omega

theorem boset_foldl_invariant (cap : Nat) (h1 : 1 ≤ cap) (keys : List String) :
    ∀ s : BOSet, s.maxlen = cap → s.size ≤ cap →
      (keys.foldl BOSet.add s).maxlen = cap ∧ (keys.foldl BOSet.add s).size ≤ cap := by
  induction keys with
  | nil => intro s hm hs; exact ⟨hm, hs⟩
  | cons k rest ih =>
    intro s hm hs
    apply ih
    · rw [boset_add_maxlen, hm]
    · have := boset_add_size_le s k (by omega) (by omega)
      omega

/-- Claim C8: the in-memory dedup structures are bounded sets with strict
FIFO eviction.  First conjunct: starting from the empty set of any positive
capacity, the size after any sequence of insertions never exceeds the
capacity.  Second conjunct: inserting a fresh key while at capacity evicts
exactly the oldest entry (the head of the insertion order) and appends the
new key.  Third conjunct: the three GlobalState dedup sets are built with
capacities 4000, 8000 and 2000. -/
theorem boset_fifo_bounded :
    (∀ (cap : Nat), 1 ≤ cap → ∀ keys : List String,
      (keys.foldl BOSet.add (BOSet.empty cap)).size ≤ cap) ∧
    (∀ (s : BOSet) (k : String), s.size = s.maxlen → s.data.contains k = false →
      (s.add k).data = s.data.tail ++ [k]) ∧
    (GState.start.processedMessageIds = BOSet.empty 4000 ∧
     GState.start.processedLeadIds = BOSet.empty 8000 ∧
     GState.start.botSentMessageIds = BOSet.empty 2000) := by
  refine ⟨?_, ?_, rfl, rfl, rfl⟩
  · intro cap h1 keys
    exact (boset_foldl_invariant cap h1 keys (BOSet.empty cap) rfl (by simp [BOSet.empty, BOSet.size])).2
  · intro s k hsize hmem
    unfold BOSet.add
    rw [hmem]
    simp only [Bool.false_eq_true, if_false]
    rw [if_pos]
    exact Nat.le_of_eq hsize.symm

theorem boset_fifo_bounded_witness :
    ((["a", "b", "c"].foldl BOSet.add (BOSet.empty 2)).size ≤ 2) ∧
    ((BOSet.mk ["a", "b"] 2).add "c").data = ["b", "c"] := by
  constructor
  · exact boset_fifo_bounded.1 2 (by decide) ["a", "b", "c"]
  · have := boset_fifo_bounded.2.1 (BOSet.mk ["a", "b"] 2) "c" (by decide) (by decide)
    simpa using this

/-- Claim C10: BoundedOrderedSet.add is idempotent on present keys: the
set is returned completely unchanged, so a repeated key never evicts an
older entry. -/
theorem boset_add_idempotent (s : BOSet) (k : String)
    (h : s.data.contains k = true) : s.add k = s := by
  unfold BOSet.add
  rw [h]
  simp

theorem boset_add_idempotent_witness :
    (BOSet.mk ["a", "b"] 2).add "a" = BOSet.mk ["a", "b"] 2 :=
  boset_add_idempotent (BOSet.mk ["a", "b"] 2) "a" (by decide)

/-- Claim C1: the monotonic funnel-stage invariant of the CRM upsert.
First conjunct: the stage column is written only when the record is newly
created, or the written stage is the override Sin Interes, or its rank
strictly exceeds the stored rank.  Second conjunct (rank never decreases
across updates): on an update, any written stage other than Sin Interes
has a strictly larger rank than the stored one.  Third conjunct: an
existing record whose stored stage is terminal (Venta Cerrada, Venta
Caida, Sin Interes) is treated as absent and the upsert creates a new
record. -/
theorem stageColumnWrite_only_when (cfg : Bool) (s : String) (isNew : Bool)
    (cur : String) (w : String) (h : stageColumnWrite cfg s isNew cur = some w) :
    isNew = true ∨ w = "Sin Interes" ∨ stageRank cur < stageRank w := by
  unfold stageColumnWrite shouldAdvanceStage at h
  split_ifs at h with h1 h2 h3 h4
  · exact Or.inl h2
  · cases h; exact Or.inr (Or.inl h3)
  · cases h; exact Or.inr (Or.inr (by simpa using h4))

theorem crmUpsertStage_written (existing : Option ExistingItem) (stageArg : Option String)
    (cfg : Bool) :
    (crmUpsertStage existing stageArg cfg).stageWritten =
      stageColumnWrite cfg (effectiveStage stageArg (upsertDecision existing).1)
        (upsertDecision existing).1 (upsertDecision existing).2 := rfl

theorem crmUpsertStage_isNew (existing : Option ExistingItem) (stageArg : Option String)
    (cfg : Bool) :
    (crmUpsertStage existing stageArg cfg).isNew = (upsertDecision existing).1 := rfl

theorem crmUpsertStage_current (existing : Option ExistingItem) (stageArg : Option String)
    (cfg : Bool) :
    (crmUpsertStage existing stageArg cfg).currentStage = (upsertDecision existing).2 := rfl

/-- Claim C1: the monotonic funnel-stage invariant of the CRM upsert.
First conjunct: the stage column is written only when the record is newly
created, or the written stage is the override Sin Interes, or its rank
strictly exceeds the stored rank.  Second conjunct (rank never decreases
across updates): on an update, any written stage other than Sin Interes
has a strictly larger rank than the stored one.  Third conjunct: an
existing record whose stored stage is terminal (Venta Cerrada, Venta
Caida, Sin Interes) is treated as absent and the upsert creates a new
record. -/
theorem crm_stage_monotone :
    (∀ (existing : Option ExistingItem) (stageArg : Option String) (cfg : Bool) (w : String),
      (crmUpsertStage existing stageArg cfg).stageWritten = some w →
      (crmUpsertStage existing stageArg cfg).isNew = true ∨ w = "Sin Interes" ∨
        stageRank (crmUpsertStage existing stageArg cfg).currentStage < stageRank w) ∧
    (∀ (existing : Option ExistingItem) (stageArg : Option String) (cfg : Bool) (w : String),
      (crmUpsertStage existing stageArg cfg).isNew = false →
      (crmUpsertStage existing stageArg cfg).stageWritten = some w →
      w ≠ "Sin Interes" →
      stageRank (crmUpsertStage existing stageArg cfg).currentStage < stageRank w) ∧
    (∀ (e : ExistingItem) (stageArg : Option String) (cfg : Bool),
      TERMINAL_STAGES.contains e.currentStage = true →
      (crmUpsertStage (some e) stageArg cfg).isNew = true) := by
  refine ⟨?_, ?_, ?_⟩
  · intro existing stageArg cfg w hw
    rw [crmUpsertStage_written] at hw
    rw [crmUpsertStage_isNew, crmUpsertStage_current]
    exact stageColumnWrite_only_when _ _ _ _ _ hw
  · intro existing stageArg cfg w hnew hw hni
    rw [crmUpsertStage_written] at hw
    rw [crmUpsertStage_isNew] at hnew
    rw [crmUpsertStage_current]
    rcases stageColumnWrite_only_when _ _ _ _ _ hw with h | h | h
    · rw [hnew] at h; cases h
    · exact absurd h hni
    · exact h
  · intro e stageArg cfg hterm
    rw [crmUpsertStage_isNew]
    unfold upsertDecision
    have : e.currentStage ∈ TERMINAL_STAGES := by
      simpa using hterm
    simp [this]

theorem crm_stage_monotone_witness :
    ((crmUpsertStage (some ⟨7, "Intención"⟩) (some "Cotización") true).isNew = true ∨
      "Cotización" = "Sin Interes" ∨
      stageRank (crmUpsertStage (some ⟨7, "Intención"⟩) (some "Cotización") true).currentStage <
        stageRank "Cotización") ∧
    stageRank (crmUpsertStage (some ⟨7, "Intención"⟩) (some "Cotización") true).currentStage <
      stageRank "Cotización" ∧
    (crmUpsertStage (some ⟨8, "Venta Cerrada"⟩) (some "Cita Programada") true).isNew = true := by
  refine ⟨?_, ?_, ?_⟩
  · exact crm_stage_monotone.1 (some ⟨7, "Intención"⟩) (some "Cotización") true "Cotización" (by decide)
  · exact crm_stage_monotone.2.1 (some ⟨7, "Intención"⟩) (some "Cotización") true "Cotización"
      (by decide) (by decide) (by decide)
  · exact crm_stage_monotone.2.2 ⟨8, "Venta Cerrada"⟩ (some "Cita Programada") true (by decide)

/-- The validity predicate as the specification words it: name at least 3
characters with an alphabetic character and not a placeholder, interest
and appointment at least 2 characters (absence is length 0, covered by
the length bounds). -/
def leadValidSpec (l : Lead) : Bool :=
  let n := pyStrip l.nombre.data
  let i := pyStrip l.interes.data
  let c := pyStrip l.cita.data
  decide (3 ≤ n.length) && n.any isSpanishAlpha &&
    !(leadPlaceholders.map String.data).contains (lowerStr n) &&
    decide (2 ≤ i.length) && decide (2 ≤ c.length)

/-- Claim C3: _lead_is_valid returns False exactly when the name is
absent, shorter than 3 characters, placeholder or non-alphabetic, or the
interest or appointment is absent or shorter than 2 characters; True
otherwise.  It is a pure function of the candidate fields (its embedding
is a plain function), so the two predicates agree on every candidate. -/
theorem emptyOrShort_eq_not_le (x : List Char) (k : Nat) (hk : 1 ≤ k) :
    (decide (x = []) || decide (x.length < k)) = !decide (k ≤ x.length) := by
  rcases Nat.lt_or_ge x.length k with h | h
  · simp [h, Nat.not_le.mpr h]
  · have h2 : ¬ x.length < k := by omega
    have hne : x ≠ [] := by
      intro he
      rw [he] at h
      simp only [List.length_nil] at h
      omega
    simp [h2, hne, h]

theorem lead_is_valid_spec (l : Lead) : leadIsValid l = leadValidSpec l := by
  unfold leadIsValid leadValidSpec
  dsimp only
  rw [emptyOrShort_eq_not_le (pyStrip l.nombre.data) 3 (by omega),
      emptyOrShort_eq_not_le (pyStrip l.interes.data) 2 (by omega),
      emptyOrShort_eq_not_le (pyStrip l.cita.data) 2 (by omega)]
  cases hA : decide (3 ≤ (pyStrip l.nombre.data).length) <;>
    cases hP : (leadPlaceholders.map String.data).contains (lowerStr (pyStrip l.nombre.data)) <;>
      cases hAl : (pyStrip l.nombre.data).any isSpanishAlpha <;>
        cases hI : decide (2 ≤ (pyStrip l.interes.data).length) <;>
          cases hC : decide (2 ≤ (pyStrip l.cita.data).length) <;>
            simp [hA, hP, hAl, hI, hC]

/-- Claim C9: when the incoming state is silent and the message is not the
/silencio command, handle_message returns an empty reply, state silent, no
media, no lead, and the exact incoming context object, unmodified. -/
theorem silent_state_frame (userMessage : String) (items : List Item) (ctx : Ctx)
    (llm : Option String) (financing : List (String × FinInfo))
    (h : lowerStr (pyStrip userMessage.data) ≠ "/silencio".data) :
    handleMessage userMessage items "silent" ctx llm financing =
      ⟨"", "silent", ctx, [], none⟩ := by
  unfold handleMessage
  rw [if_neg h, if_pos rfl]

theorem silent_state_frame_witness :
    handleMessage "hola" [] "silent" Ctx.empty none [] = ⟨"", "silent", Ctx.empty, [], none⟩ :=
  silent_state_frame "hola" [] Ctx.empty none [] (by decide)

theorem pdfFinish_turn_count (r : List Char) (m : List String) (l : Option Lead)
    (f : String) (c : Ctx) (p : Option PdfInfo) :
    (pdfFinish r m l f c p).context.turn_count = c.turn_count := by
  unfold pdfFinish
  cases p with
  | none => rfl
  | some q => cases q <;> dsimp only <;> (repeat' split) <;> rfl

/-- Concrete session context for the turn-count counterexample: a
conversation five turns in. -/
def ctxTc : Ctx := ⟨"", "", "", "", "", some 5, none, none, none, none⟩

/-- Counterexample to claim C5 as stated: the /silencio path of
handle_message returns a context holding only the history, so the stored
turn_count (5 here) is dropped rather than incremented to 6 — turn_count
is reset by this code path. -/
theorem turn_count_cex :
    (handleMessage "/silencio" [] "chatting" ctxTc none []).context.turn_count = none ∧
    ¬ ((handleMessage "/silencio" [] "chatting" ctxTc none []).context.turn_count =
        some (ctxTc.turn_count.getD 0 + 1)) := by
  decide

/-- Claim C5 as amended: on the ordinary chat path (message other than
/silencio, state other than silent) the returned turn_count is exactly the
incoming turn_count (0 when absent) plus one; the /silencio path returns a
context whose turn_count is absent (the only reset path). -/
theorem turn_count_increment :
    (∀ (um : String) (items : List Item) (state : String) (ctx : Ctx)
        (llm : Option String) (fin : List (String × FinInfo)),
      lowerStr (pyStrip um.data) ≠ "/silencio".data → state ≠ "silent" →
      (handleMessage um items state ctx llm fin).context.turn_count =
        some (ctx.turn_count.getD 0 + 1)) ∧
    (∀ (um : String) (items : List Item) (state : String) (ctx : Ctx)
        (llm : Option String) (fin : List (String × FinInfo)),
      lowerStr (pyStrip um.data) = "/silencio".data →
      (handleMessage um items state ctx llm fin).context.turn_count = none) := by
  constructor
  · intro um items state ctx llm fin h1 h2
    unfold handleMessage
    rw [if_neg h1, if_neg h2]
    simp only [pdfFinish_turn_count]
  · intro um items state ctx llm fin h1
    unfold handleMessage
    rw [if_pos h1]
    rfl

theorem turn_count_increment_witness :
    ((handleMessage "hola" [] "start" ctxTc none []).context.turn_count = some 6) ∧
    ((handleMessage "/silencio" [] "start" ctxTc none []).context.turn_count = none) := by
  constructor
  · have := turn_count_increment.1 "hola" [] "start" ctxTc none [] (by decide) (by decide)
    simpa using this
  · exact turn_count_increment.2 "/silencio" [] "start" ctxTc none [] (by decide)

theorem strOf_data (s : String) : strOf s.data = s := rfl

theorem stripSpeakerLabel_apology :
    stripSpeakerLabel apologySentence.data = apologySentence.data := by decide

theorem sanitize_apology (m : List String) :
    sanitizeReplyIfPhotos apologySentence.data m = apologySentence.data := by
  unfold sanitizeReplyIfPhotos
  split
  · rfl
  · decide

theorem promise_apology : photoPromiseMatches apologySentence.data = false := by decide

theorem striplinks_apology :
    stripMarkdownLinks apologySentence.data = apologySentence.data := by decide

theorem pdfFinish_lead_info (r : List Char) (m : List String) (l : Option Lead)
    (f : String) (c : Ctx) (p : Option PdfInfo) :
    (pdfFinish r m l f c p).lead_info = l := by
  unfold pdfFinish
  cases p with
  | none => rfl
  | some q => cases q <;> dsimp only <;> (repeat' split) <;> rfl

theorem pdfFinish_reply (r : List Char) (m : List String) (l : Option Lead)
    (f : String) (c : Ctx) (p : Option PdfInfo) :
    (pdfFinish r m l f c p).reply =
      (match p with
       | some (.found _ _ mensaje _) => mensaje
       | _ => strOf r) := by
  unfold pdfFinish
  cases p with
  | none => rfl
  | some q => cases q <;> dsimp only <;> (repeat' split) <;> rfl

theorem monFailsafe_none_valid (um : String) (a b c d : List Char) (l : Lead)
    (h : monFailsafe um a b c d none = some l) : leadIsValid l = true := by
  unfold monFailsafe at h
  dsimp only at h
  split_ifs at h <;> cases h <;> assumption


/-- The inventory item used by the concrete media and lead scenarios: the
Tunland G9 with a five-photo list. -/
def tunlandG9 : Item :=
  ⟨"Foton", "Tunland G9", "2025", "500000",
   "http://p1|http://p2|http://p3|http://p4|http://p5"⟩

/-- A session five turns in with accumulated facts: name, interest and
appointment already extracted in earlier turns. -/
def ctxFacts : Ctx :=
  ⟨"", "Juan Perez", "Tunland G9", "Mañana 10:00 AM", "", some 5, none, none, none, none⟩

set_option maxHeartbeats 4000000 in
/-- Counterexample to claim C4 as stated: with both LLM providers
exhausted (llm = none) on the message asking for photos of the G9, the
reply is the fixed apology, but the failsafe still emits a lead from the
session facts and the photo path still attaches media — lead_info is not
None and media_urls is not empty. -/
theorem llm_failure_cex :
    (handleMessage "mándame fotos de la g9" [tunlandG9] "chatting" ctxFacts none []).reply =
      apologySentence ∧
    (handleMessage "mándame fotos de la g9" [tunlandG9] "chatting" ctxFacts none []).lead_info =
      some ⟨"Juan Perez", "Tunland G9", "Mañana 10:00 AM", "Por definir"⟩ ∧
    (handleMessage "mándame fotos de la g9" [tunlandG9] "chatting" ctxFacts none []).media_urls =
      ["http://p1", "http://p2", "http://p3"] := by
  refine ⟨?_, ?_, ?_⟩ <;> decide

/-- Claim C4 as amended: when the LLM call fails (both providers
exhausted) the pipeline still returns normally and the user-visible
reply is exactly the fixed apology sentence, except when the same turn
carries a PDF request that resolves against the financing data (a
found result), in which case the reply is that PDF entry's fixed
message; and any lead that is still emitted comes from the
session-facts failsafe and passes the validity gate.  Media selection
still runs, so photos may accompany the apology. -/
theorem llm_failure_apology (um : String) (items : List Item) (state : String) (ctx : Ctx)
    (financing : List (String × FinInfo))
    (h1 : lowerStr (pyStrip um.data) ≠ "/silencio".data) (h2 : state ≠ "silent") :
    (handleMessage um items state ctx none financing).reply =
      (match detectPdfRequest um (strOf (pyStrip ctx.last_interest.data))
          ctx.last_pdf_request_type financing with
       | some (.found _ _ mensaje _) => mensaje
       | _ => apologySentence) ∧
    (∀ l, (handleMessage um items state ctx none financing).lead_info = some l →
      leadIsValid l = true) := by
  unfold handleMessage
  rw [if_neg h1, if_neg h2]
  constructor
  · simp only [stripSpeakerLabel_apology, sanitize_apology, promise_apology, Bool.and_false,
      striplinks_apology, pdfFinish_reply, strOf_data, Bool.false_eq_true, if_false]
  · intro l hl
    lift_lets at hl
    extract_lets a1 a2 a3 a4 tc a5 a6 a7 br li r1 c1 pk c2 mu r2 r3 r4 ld f0 f1 f2 f3 c3 at hl
    rw [pdfFinish_lead_info] at hl
    unfold_let ld br at hl
    dsimp only at hl
    exact monFailsafe_none_valid _ _ _ _ _ _ hl

/-- The financing table and session used by the witness: one entry with a
ficha PDF, and a session already interested in the Tunland G9. -/
def finG9 : List (String × FinInfo) :=
  [("tunland_g9", ⟨"Tunland G9", 2025, some "http://ficha.pdf", none⟩)]

def ctxG9 : Ctx := ⟨"", "", "Tunland G9", "", "", none, none, none, none, none⟩

theorem llm_failure_apology_witness :
    detectPdfRequest "mándame la ficha" (strOf (pyStrip ctxG9.last_interest.data))
        ctxG9.last_pdf_request_type finG9 =
      some (.found "ficha" "http://ficha.pdf" "Claro, te comparto la ficha tecnica en PDF."
        "Tunland G9 2025") ∧
    ((handleMessage "mándame la ficha" [] "chatting" ctxG9 none finG9).reply =
      (match detectPdfRequest "mándame la ficha" (strOf (pyStrip ctxG9.last_interest.data))
          ctxG9.last_pdf_request_type finG9 with
       | some (.found _ _ mensaje _) => mensaje
       | _ => apologySentence) ∧
     (∀ l, (handleMessage "mándame la ficha" [] "chatting" ctxG9 none finG9).lead_info =
        some l → leadIsValid l = true)) :=
  ⟨by decide,
   llm_failure_apology "mándame la ficha" [] "chatting" ctxG9 finG9 (by decide) (by decide)⟩

theorem pagePhotos_zero (urls : List String) (w : Bool) (h : urls ≠ []) :
    (pagePhotos urls 0 w).1 = if w = true then urls.take 1 else urls.take 3 := by
  unfold pagePhotos
  have hlen : 1 ≤ urls.length := by
    cases urls with
    | nil => exact absurd rfl h
    | cons a l => simp
  cases w with
  | true =>
    rw [if_pos rfl]
    rw [if_pos (by omega : 0 < urls.length)]
    simp
  | false =>
    rw [if_neg (by simp)]
    dsimp only [List.drop_zero, Nat.sub_zero]
    have hsel : urls.take (min (0 + 3) urls.length) = urls.take 3 :=
      List.take_eq_take.mpr (by omega)
    rw [hsel]
    have hne : urls.take 3 ≠ [] := by
      cases urls with
      | nil => exact absurd rfl h
      | cons a l => simp
    rw [if_neg hne]
    simp

/-- Claim C7: photo pagination with cursor memory.  First conjunct: with
last_interest Tunland G9 and an unset cursor, the message asking for
photos selects the first page (three photos) of the G9 photo list from
cursor 0 and stores cursor 3 and the G9 as the photo model.  Second
conjunct: a follow-up asking for one more photo returns exactly the photo
at the stored cursor and advances the cursor by exactly one.  Third
conjunct, in general: whenever the resolved target model differs
(normalized) from the stored photo model, the page is taken from cursor 0
(one photo in next-mode, the first three otherwise) and the target is
stored as the new photo model. -/
theorem photo_pagination_cursor :
    (pickMediaUrls "mándame fotos" "" [tunlandG9] "Tunland G9" none none =
      ⟨["http://p1", "http://p2", "http://p3"], some "Tunland G9", some 3⟩) ∧
    (pickMediaUrls "otra foto" "" [tunlandG9] "Tunland G9" (some "Tunland G9") (some 3) =
      ⟨["http://p4"], some "Tunland G9", some 4⟩) ∧
    (∀ (um r : String) (items : List Item) (li : String) (pm : Option String)
        (pi : Option Nat) (it : Item) (name : List Char),
      containsAnyS (normalizeSpanish um.data)
        ["ubicacion", "ubicación", "donde estan", "dónde están",
         "direccion", "dirección", "mapa", "donde se ubican"] = false →
      items ≠ [] →
      ((explicitPhotoRequest (normalizeSpanish um.data) &&
          !singularPhotoQuestion (normalizeSpanish um.data)) ||
        (pyStrip ((pm.getD "")).data ≠ [] &&
          containsAnyS (normalizeSpanish um.data) contextPhotoKeywords)) = true →
      resolvePhotoTarget (normalizeSpanish um.data) (normalizeSpanish r.data)
        items (pyStrip li.data) = some (it, name) →
      extractPhotosFromItem it ≠ [] →
      normalizeSpanish name ≠ normalizeSpanish (pyStrip (pm.getD "").data) →
      (pickMediaUrls um r items li pm pi).urls =
        (if containsAnyS (normalizeSpanish um.data) ["otra", "mas", "más", "siguiente"]
         then (extractPhotosFromItem it).take 1
         else (extractPhotosFromItem it).take 3) ∧
      (pickMediaUrls um r items li pm pi).photoModel = some (strOf name)) := by
  refine ⟨by decide, by decide, ?_⟩
  intro um r items li pm pi it name hgps hitems hgate htgt hurls hchg
  unfold pickMediaUrls
  dsimp only
  simp only [hgps, hgate, htgt, Bool.false_eq_true, if_false, if_neg hitems, Bool.not_true,
    if_neg hurls]
  rw [if_pos hchg, if_pos hchg]
  refine ⟨?_, rfl⟩
  exact pagePhotos_zero _ _ hurls

theorem photo_pagination_cursor_witness :
    (pickMediaUrls "mándame fotos" "" [tunlandG9] "Tunland G9" none none).urls =
      (if containsAnyS (normalizeSpanish "mándame fotos".data)
          ["otra", "mas", "más", "siguiente"]
       then (extractPhotosFromItem tunlandG9).take 1
       else (extractPhotosFromItem tunlandG9).take 3) ∧
    (pickMediaUrls "mándame fotos" "" [tunlandG9] "Tunland G9" none none).photoModel =
      some (strOf "Tunland G9".data) :=
  photo_pagination_cursor.2.2 "mándame fotos" "" [tunlandG9] "Tunland G9" none none
    tunlandG9 "Tunland G9".data (by decide) (by decide) (by decide) (by decide)
    (by decide) (by decide)

/-- The claimed per-model score without the year bonus, as the spec words
it: weight 2 per normalized model token found in the user text, weight 1
per token found in the draft bot reply. -/
def specTokenScore (userMessage reply : String) (it : Item) : Nat :=
  ((modelTokens (normalizeSpanish (itemModelo it))).map (fun tok =>
    (if hasWordBounded (normalizeSpanish userMessage.data) tok then 2 else 0) +
    (if hasWordBounded (normalizeSpanish reply.data) tok then 1 else 0))).sum

/-- The claimed +3 bonus for an exact year match of the item in the user
text. -/
def specYearBonus (userMessage : String) (it : Item) : Nat :=
  if pyStrip it.Anio.data ≠ [] &&
     hasSub (normalizeSpanish userMessage.data) (pyStrip it.Anio.data) then 3 else 0

/-- The score exactly as claim C6 states it, year bonus included. -/
def claimInterestScore (userMessage reply : String) (it : Item) : Nat :=
  specTokenScore userMessage reply it + specYearBonus userMessage it

def interestMaxScore (msgN repN : List Char) (items : List Item) : Nat :=
  items.foldr
    (fun it m => max (interestScore msgN repN (normalizeSpanish (itemModelo it))) m) 0

theorem foldl_score_sum (msgN repN : List Char) (toks : List (List Char)) : ∀ acc : Nat,
    toks.foldl (fun acc tok => acc + (if hasWordBounded msgN tok then 2 else 0) +
      (if hasWordBounded repN tok then 1 else 0)) acc =
    acc + (toks.map (fun tok => (if hasWordBounded msgN tok then 2 else 0) +
      (if hasWordBounded repN tok then 1 else 0))).sum := by
  induction toks with
  | nil => intro acc; simp
  | cons t rest ih =>
    intro acc
    simp only [List.foldl_cons, List.map_cons, List.sum_cons, ih]
    omega

theorem interestScore_eq_spec (um r : String) (it : Item) :
    interestScore (normalizeSpanish um.data) (normalizeSpanish r.data)
      (normalizeSpanish (itemModelo it)) = specTokenScore um r it := by
  unfold interestScore specTokenScore
  rw [foldl_score_sum]
  omega

theorem interestScore_zero_modelo (msgN repN : List Char) (it : Item)
    (h : itemModelo it = []) :
    interestScore msgN repN (normalizeSpanish (itemModelo it)) = 0 := by
  unfold interestScore
  rw [h]
  have : modelTokens (normalizeSpanish []) = [] := by decide
  rw [this]
  rfl

theorem interestScore_zero_toks (msgN repN : List Char) (it : Item)
    (h : modelTokens (normalizeSpanish (itemModelo it)) = []) :
    interestScore msgN repN (normalizeSpanish (itemModelo it)) = 0 := by
  unfold interestScore
  rw [h]
  rfl

theorem interestFold_pair (msgN repN : List Char) : ∀ (items : List Item)
    (b : Option String) (bs : Nat),
    interestFold msgN repN items (b, bs) = (b, bs) ∨
      ∃ it ∈ items, interestFold msgN repN items (b, bs) =
        (some (strOf (itemModelo it)),
         interestScore msgN repN (normalizeSpanish (itemModelo it))) := by
  intro items
  induction items with
  | nil => intro b bs; left; rfl
  | cons it rest ih =>
    intro b bs
    unfold interestFold
    dsimp only
    split_ifs with h1 h2 h3
    · rcases ih b bs with h | ⟨it2, hm, he⟩
      · left; exact h
      · right; exact ⟨it2, List.mem_cons_of_mem _ hm, he⟩
    · rcases ih b bs with h | ⟨it2, hm, he⟩
      · left; exact h
      · right; exact ⟨it2, List.mem_cons_of_mem _ hm, he⟩
    · rcases ih (some (strOf (itemModelo it)))
        (interestScore msgN repN (normalizeSpanish (itemModelo it))) with h | ⟨it2, hm, he⟩
      · right
        refine ⟨it, List.mem_cons_self _ _, ?_⟩
        rw [h]
      · right; exact ⟨it2, List.mem_cons_of_mem _ hm, he⟩
    · rcases ih b bs with h | ⟨it2, hm, he⟩
      · left; exact h
      · right; exact ⟨it2, List.mem_cons_of_mem _ hm, he⟩

theorem interestFold_snd (msgN repN : List Char) : ∀ (items : List Item)
    (b : Option String) (bs : Nat),
    (interestFold msgN repN items (b, bs)).2 = max bs (interestMaxScore msgN repN items) := by
  intro items
  induction items with
  | nil => intro b bs; simp [interestFold, interestMaxScore]
  | cons it rest ih =>
    intro b bs
    unfold interestFold interestMaxScore
    dsimp only
    rw [List.foldr_cons]
    have hM : interestMaxScore msgN repN rest =
        rest.foldr (fun it2 m =>
          max (interestScore msgN repN (normalizeSpanish (itemModelo it2))) m) 0 := rfl
    split_ifs with h1 h2 h3
    · rw [ih b bs, hM.symm, interestScore_zero_modelo msgN repN it h1]
      simp
    · rw [ih b bs, hM.symm, interestScore_zero_toks msgN repN it h2]
      simp
    · rw [ih, hM.symm]
      have hle : bs ≤ max (interestScore msgN repN (normalizeSpanish (itemModelo it)))
          (interestMaxScore msgN repN rest) :=
        le_trans (Nat.le_of_lt h3) (Nat.le_max_left _ _)
      rw [Nat.max_comm bs]
      exact (Nat.max_eq_left hle).symm
    · rw [ih b bs, hM.symm]
      have h3n : interestScore msgN repN (normalizeSpanish (itemModelo it)) ≤ bs :=
        Nat.le_of_not_lt h3
      rw [← Nat.max_assoc, Nat.max_eq_left h3n]

theorem score_le_interestMax (msgN repN : List Char) : ∀ (items : List Item) (it : Item),
    it ∈ items →
    interestScore msgN repN (normalizeSpanish (itemModelo it)) ≤
      interestMaxScore msgN repN items := by
  intro items
  induction items with
  | nil => intro it h; cases h
  | cons a rest ih =>
    intro it h
    unfold interestMaxScore
    rw [List.foldr_cons]
    rcases List.mem_cons.mp h with he | hm
    · rw [he]; exact Nat.le_max_left _ _
    · exact le_trans (ih it hm) (Nat.le_max_right _ _)

/-- Counterexample to claim C6 as stated: with the catalog holding only
the Tunland G9 of year 2025 and the user message mentioning exactly that
year, the claimed scoring (with the +3 exact-year bonus) gives the G9 the
maximal score 3, at least 2, so the claimed extraction must return it —
but _extract_interest_from_messages has no year bonus and returns none. -/
theorem interest_year_bonus_cex :
    claimInterestScore "me interesa el 2025" "" tunlandG9 = 3 ∧
    2 ≤ claimInterestScore "me interesa el 2025" "" tunlandG9 ∧
    extractInterestFromMessages "me interesa el 2025" "" [tunlandG9] = none := by
  refine ⟨by decide, by decide, by decide⟩

/-- Claim C6 as amended: the extraction scores each catalog model by
counting word-bounded normalized-token matches, weight 2 in the user text
and weight 1 in the bot reply, with no year bonus; it returns a
highest-scoring model exactly when that score is at least 2 (first such
model on ties), else no match. -/
theorem interest_extraction_scoring (um r : String) (items : List Item) :
    (∀ m, extractInterestFromMessages um r items = some m →
      ∃ it, it ∈ items ∧ m = strOf (itemModelo it) ∧ 2 ≤ specTokenScore um r it ∧
        ∀ it2 ∈ items, specTokenScore um r it2 ≤ specTokenScore um r it) ∧
    (extractInterestFromMessages um r items = none →
      ∀ it ∈ items, specTokenScore um r it < 2) := by
  constructor
  · intro m hm
    unfold extractInterestFromMessages at hm
    dsimp only at hm
    split_ifs at hm with hnil hth
    rcases interestFold_pair (normalizeSpanish um.data) (normalizeSpanish r.data)
      items none 0 with hp | ⟨it, hmem, he⟩
    · rw [hp] at hm; simp at hm
    · rw [he] at hm
      dsimp only at hm
      rw [he] at hth
      dsimp only at hth
      have hsnd := interestFold_snd (normalizeSpanish um.data) (normalizeSpanish r.data)
        items none 0
      rw [he] at hsnd
      dsimp only at hsnd
      rw [Nat.zero_max] at hsnd
      refine ⟨it, hmem, (Option.some_inj.mp hm).symm, ?_, ?_⟩
      · exact le_of_le_of_eq hth (interestScore_eq_spec um r it)
      · intro it2 hm2
        calc specTokenScore um r it2
            = interestScore (normalizeSpanish um.data) (normalizeSpanish r.data)
                (normalizeSpanish (itemModelo it2)) := (interestScore_eq_spec um r it2).symm
          _ ≤ interestMaxScore (normalizeSpanish um.data) (normalizeSpanish r.data) items :=
              score_le_interestMax _ _ items it2 hm2
          _ = interestScore (normalizeSpanish um.data) (normalizeSpanish r.data)
                (normalizeSpanish (itemModelo it)) := hsnd.symm
          _ = specTokenScore um r it := interestScore_eq_spec um r it
  · intro hnone it hmem
    unfold extractInterestFromMessages at hnone
    dsimp only at hnone
    split_ifs at hnone with hnil hth
    · rw [hnil] at hmem; cases hmem
    · rcases interestFold_pair (normalizeSpanish um.data) (normalizeSpanish r.data)
        items none 0 with hp | ⟨it2, hm2, he⟩
      · rw [hp] at hth
        simp at hth
      · rw [he] at hnone
        simp at hnone
    · have hsnd := interestFold_snd (normalizeSpanish um.data) (normalizeSpanish r.data)
        items none 0
      rw [hsnd, Nat.zero_max] at hth
      have hlt : interestMaxScore (normalizeSpanish um.data) (normalizeSpanish r.data) items < 2 := by
        omega
      calc specTokenScore um r it
          = interestScore (normalizeSpanish um.data) (normalizeSpanish r.data)
              (normalizeSpanish (itemModelo it)) := (interestScore_eq_spec um r it).symm
        _ ≤ interestMaxScore (normalizeSpanish um.data) (normalizeSpanish r.data) items :=
            score_le_interestMax _ _ items it hmem
        _ < 2 := hlt

theorem interest_extraction_scoring_witness :
    ∃ it, it ∈ [tunlandG9] ∧ "Tunland G9" = strOf (itemModelo it) ∧
      2 ≤ specTokenScore "quiero la g9" "" it ∧
      ∀ it2 ∈ [tunlandG9], specTokenScore "quiero la g9" "" it2 ≤
        specTokenScore "quiero la g9" "" it :=
  (interest_extraction_scoring "quiero la g9" "" [tunlandG9]).1 "Tunland G9" (by decide)

theorem send_leadIds (gs : GState) (now : Int) (n t : String) (m : List String) :
    (sendEvolutionMessage gs now n t m).1.processedLeadIds = gs.processedLeadIds := by
  unfold sendEvolutionMessage
  dsimp only
  split_ifs <;> rfl

theorem psevWithText_crm (gs : GState) (ext : Externals) (remoteJid msgId um : String)
    (h : gs.processedLeadIds.mem (remoteJid ++ "|" ++ msgId ++ "|lead") = true) :
    (psevWithText gs ext remoteJid msgId um).2.crmLead = none := by
  unfold psevWithText
  dsimp only
  split_ifs with h1 h2 hmem
  · split <;> rfl
  · rfl
  · split <;> rfl
  · exact absurd (by rw [send_leadIds]; exact h) hmem

theorem psevAfterSilence_crm (gs : GState) (ext : Externals)
    (remoteJid msgId : String) (msgObj : MsgObj)
    (h : gs.processedLeadIds.mem (remoteJid ++ "|" ++ msgId ++ "|lead") = true) :
    (psevAfterSilence gs ext remoteJid msgId msgObj).2.crmLead = none := by
  unfold psevAfterSilence
  dsimp only
  split_ifs with h1 h2 h3
  · rfl
  · exact psevWithText_crm gs ext remoteJid msgId ext.transcript h
  · rfl
  · exact psevWithText_crm gs ext remoteJid msgId _ h

/-- Claim C2: the inbound dedup gate and the lead dedup gate.  First
conjunct: an event whose (stripped) transport message id is already in
the processed-message set is discarded with no effects at all: no send,
no session write, no CRM write, and the global state unchanged.  Second
conjunct: whatever the path taken, when the lead key (conversation id,
message id, lead) is already in the processed-lead set no CRM write is
emitted. -/
theorem dedup_gate :
    (∀ (gs : GState) (ev : Event) (ext : Externals),
      strOf (pyStrip ev.msgId.data) ≠ "" →
      gs.processedMessageIds.mem (strOf (pyStrip ev.msgId.data)) = true →
      processSingleEvent gs ev ext = (gs, ⟨[], none, none⟩)) ∧
    (∀ (gs : GState) (ev : Event) (ext : Externals),
      gs.processedLeadIds.mem
        (strOf (pyStrip ev.remoteJid.data) ++ "|" ++ strOf (pyStrip ev.msgId.data) ++
          "|lead") = true →
      (processSingleEvent gs ev ext).2.crmLead = none) := by
  constructor
  · intro gs ev ext hne hmem
    unfold processSingleEvent
    dsimp only
    by_cases hj : strOf (pyStrip ev.remoteJid.data) = ""
    · rw [if_pos hj]
    · rw [if_neg hj]
      by_cases hg : ("@g.us".data.isSuffixOf (strOf (pyStrip ev.remoteJid.data)).data ||
          hasSubS (strOf (pyStrip ev.remoteJid.data)).data "broadcast") = true
      · rw [if_pos hg]
      · rw [if_neg hg]
        have hc3 : (decide (strOf (pyStrip ev.msgId.data) ≠ "") &&
            gs.processedMessageIds.mem (strOf (pyStrip ev.msgId.data))) = true := by
          rw [hmem]
          simp [hne]
        rw [if_pos hc3]
  · intro gs ev ext h
    unfold processSingleEvent
    dsimp only
    by_cases hj : strOf (pyStrip ev.remoteJid.data) = ""
    · rw [if_pos hj]
    · rw [if_neg hj]
      by_cases hg : ("@g.us".data.isSuffixOf (strOf (pyStrip ev.remoteJid.data)).data ||
          hasSubS (strOf (pyStrip ev.remoteJid.data)).data "broadcast") = true
      · rw [if_pos hg]
      · rw [if_neg hg]
        by_cases hc3 : (decide (strOf (pyStrip ev.msgId.data) ≠ "") &&
            gs.processedMessageIds.mem (strOf (pyStrip ev.msgId.data))) = true
        · rw [if_pos hc3]
        · rw [if_neg hc3]
          repeat' split
          all_goals first
            | rfl
            | exact psevAfterSilence_crm _ ext _ _ ev.msg h

def dedupEv : Event := ⟨"521@s.whatsapp.net", false, "M1", .conversation "hola"⟩

def dedupExt : Externals := ⟨0, "", none, [], none, [], ⟨none, 60, 30⟩⟩

def dedupGS : GState := ⟨⟨["M1"], 4000⟩, BOSet.empty 8000, [], BOSet.empty 2000, [], []⟩

def dedupGS2 : GState :=
  ⟨BOSet.empty 4000, ⟨["521@s.whatsapp.net|M1|lead"], 8000⟩, [], BOSet.empty 2000, [], []⟩

/-- Closed instance of the two dedup gates at concrete states and a concrete event. -/
theorem dedup_gate_witness :
    (strOf (pyStrip dedupEv.msgId.data) ≠ "" ∧
      dedupGS.processedMessageIds.mem (strOf (pyStrip dedupEv.msgId.data)) = true ∧
      processSingleEvent dedupGS dedupEv dedupExt = (dedupGS, ⟨[], none, none⟩)) ∧
    (dedupGS2.processedLeadIds.mem
        (strOf (pyStrip dedupEv.remoteJid.data) ++ "|" ++
          strOf (pyStrip dedupEv.msgId.data) ++ "|lead") = true ∧
      (processSingleEvent dedupGS2 dedupEv dedupExt).2.crmLead = none) :=
  ⟨⟨by decide, by decide, dedup_gate.1 dedupGS dedupEv dedupExt (by decide) (by decide)⟩,
   ⟨by decide, dedup_gate.2 dedupGS2 dedupEv dedupExt (by decide)⟩⟩
